import Mathlib

set_option maxHeartbeats 1000000
set_option maxRecDepth 100000

/-
Verification of the Dronecraft archipelago core against its specification.
The definitions below are shallow embeddings of the Python sources:
byte strings become lists of natural numbers below 256, 32-bit float
fields are carried as their IEEE-754 single precision bit patterns
(natural numbers below 2 to the 32), real valued control code is modelled
over the real numbers, and the rational numbers model wall clock times.
-/

namespace Skyros

-- ## Byte serialization helpers (struct.pack / struct.unpack fragments)

-- struct.pack of an unsigned 8 bit value (in range values only are packed)
def u8le (v : Nat) : List Nat := [v % 256]

-- struct.pack of a little-endian unsigned 16 bit value
def u16le (v : Nat) : List Nat := [v % 256, v / 256 % 256]

-- struct.pack of a little-endian unsigned 32 bit value
def u32le (v : Nat) : List Nat := [v % 256, v / 256 % 256, v / 65536 % 256, v / 16777216 % 256]

-- struct.unpack of a little-endian unsigned 16 bit value from two bytes
def rdU16 (b0 b1 : Nat) : Nat := b0 + 256 * b1

-- struct.unpack of a little-endian unsigned 32 bit value from four bytes
def rdU32 (b0 b1 b2 b3 : Nat) : Nat := b0 + 256 * b1 + 65536 * b2 + 16777216 * b3

theorem rdU16_u16le {v : Nat} (h : v < 65536) : rdU16 (v % 256) (v / 256 % 256) = v := by
  unfold rdU16
  omega

theorem rdU32_u32le {v : Nat} (h : v < 4294967296) :
    rdU32 (v % 256) (v / 256 % 256) (v / 65536 % 256) (v / 16777216 % 256) = v := by
  unfold rdU32
  omega

-- ## CRC16 (packet_codec.calculate_crc16)

-- one iteration of the inner loop of calculate_crc16
def crcStep (crc : Nat) : Nat :=
  if crc &&& 1 = 1 then (crc >>> 1) ^^^ 0xA001 else crc >>> 1

-- the inner loop, run n times
def crcSteps : Nat → Nat → Nat
  | 0, crc => crc
  | n + 1, crc => crcSteps n (crcStep crc)

-- the body of the outer loop of calculate_crc16: fold in one data byte
def crcByte (crc b : Nat) : Nat := crcSteps 8 (crc ^^^ b)

-- calculate_crc16: CRC over all bytes except the trailing two CRC bytes,
-- initial value 0xFFFF, polynomial 0xA001, masked to 16 bits at the end
def calculate_crc16 (data : List Nat) : Nat :=
  ((data.take (data.length - 2)).foldl crcByte 0xFFFF) &&& 0xFFFF

-- ### CRC facts: each byte step is a bijection on 16 bit states

theorem crcStep_lt {c : Nat} (h : c < 65536) : crcStep c < 65536 := by
  unfold crcStep
  split
  · refine Nat.xor_lt_two_pow (n := 16) ?_ (by decide)
    have : c >>> 1 = c / 2 := Nat.shiftRight_one c
    omega
  · have : c >>> 1 = c / 2 := Nat.shiftRight_one c
    omega

theorem xor_right_cancel {a b c : Nat} (h : a ^^^ c = b ^^^ c) : a = b := by
  have := congrArg (fun x => x ^^^ c) h
  simpa [Nat.xor_assoc] using this

theorem crcStep_inj {c1 c2 : Nat} (h1 : c1 < 65536) (h2 : c2 < 65536)
    (h : crcStep c1 = crcStep c2) : c1 = c2 := by
  unfold crcStep at h
  have e1 : c1 &&& 1 = c1 % 2 := Nat.and_one_is_mod c1
  have e2 : c2 &&& 1 = c2 % 2 := Nat.and_one_is_mod c2
  have s1 : c1 >>> 1 = c1 / 2 := Nat.shiftRight_one c1
  have s2 : c2 >>> 1 = c2 / 2 := Nat.shiftRight_one c2
  by_cases p1 : c1 % 2 = 1 <;> by_cases p2 : c2 % 2 = 1
  · rw [if_pos (by omega : c1 &&& 1 = 1), if_pos (by omega : c2 &&& 1 = 1)] at h
    have := xor_right_cancel h
    omega
  · rw [if_pos (by omega : c1 &&& 1 = 1), if_neg (by omega : ¬ c2 &&& 1 = 1)] at h
    -- the odd branch has bit 15 set, the even branch does not
    exfalso
    have hlow : c1 / 2 < 32768 := by omega
    have hb : (c1 >>> 1 ^^^ 0xA001).testBit 15 = true := by
      rw [Nat.testBit_xor]
      have : (c1 >>> 1).testBit 15 = false := by
        refine Nat.testBit_eq_false_of_lt ?_
        rw [s1]; omega
      rw [this]
      decide
    have hb2 : (c2 >>> 1).testBit 15 = false := by
      refine Nat.testBit_eq_false_of_lt ?_
      rw [s2]; omega
    rw [h] at hb
    rw [hb2] at hb
    exact Bool.false_ne_true hb
  · rw [if_neg (by omega : ¬ c1 &&& 1 = 1), if_pos (by omega : c2 &&& 1 = 1)] at h
    exfalso
    have hb : (c2 >>> 1 ^^^ 0xA001).testBit 15 = true := by
      rw [Nat.testBit_xor]
      have : (c2 >>> 1).testBit 15 = false := by
        refine Nat.testBit_eq_false_of_lt ?_
        rw [s2]; omega
      rw [this]
      decide
    have hb2 : (c1 >>> 1).testBit 15 = false := by
      refine Nat.testBit_eq_false_of_lt ?_
      rw [s1]; omega
    rw [← h] at hb
    rw [hb2] at hb
    exact Bool.false_ne_true hb
  · rw [if_neg (by omega : ¬ c1 &&& 1 = 1), if_neg (by omega : ¬ c2 &&& 1 = 1)] at h
    omega

theorem crcSteps_lt {n : Nat} {c : Nat} (h : c < 65536) : crcSteps n c < 65536 := by
  induction n generalizing c with
  | zero => exact h
  | succ n ih => exact ih (crcStep_lt h)

theorem crcSteps_inj {n : Nat} {c1 c2 : Nat} (h1 : c1 < 65536) (h2 : c2 < 65536)
    (h : crcSteps n c1 = crcSteps n c2) : c1 = c2 := by
  induction n generalizing c1 c2 with
  | zero => exact h
  | succ n ih =>
    exact crcStep_inj h1 h2 (ih (crcStep_lt h1) (crcStep_lt h2) h)

theorem crcByte_lt {c b : Nat} (hc : c < 65536) (hb : b < 256) : crcByte c b < 65536 := by
  unfold crcByte
  exact crcSteps_lt (Nat.xor_lt_two_pow (n := 16) hc (by omega))

theorem crcByte_inj_state {c1 c2 b : Nat} (h1 : c1 < 65536) (h2 : c2 < 65536) (hb : b < 256)
    (hne : c1 ≠ c2) : crcByte c1 b ≠ crcByte c2 b := by
  intro h
  unfold crcByte at h
  have hx1 : c1 ^^^ b < 65536 := Nat.xor_lt_two_pow (n := 16) h1 (by omega)
  have hx2 : c2 ^^^ b < 65536 := Nat.xor_lt_two_pow (n := 16) h2 (by omega)
  exact hne (xor_right_cancel (crcSteps_inj hx1 hx2 h))

theorem crcByte_inj_byte {c b1 b2 : Nat} (hc : c < 65536) (hb1 : b1 < 256) (hb2 : b2 < 256)
    (hne : b1 ≠ b2) : crcByte c b1 ≠ crcByte c b2 := by
  intro h
  unfold crcByte at h
  have hx1 : c ^^^ b1 < 65536 := Nat.xor_lt_two_pow (n := 16) hc (by omega)
  have hx2 : c ^^^ b2 < 65536 := Nat.xor_lt_two_pow (n := 16) hc (by omega)
  have hx := crcSteps_inj hx1 hx2 h
  apply hne
  have h1 := congrArg (fun x => c ^^^ x) hx
  simpa [← Nat.xor_assoc] using h1

-- ## Packet model (lib/packets.py)

-- PACKET_PREAMBLE = 0xAA55, MAX_PAYLOAD_SIZE = 128, HEADER_SIZE = 5
def PACKET_PREAMBLE : Nat := 0xAA55

def MAX_PAYLOAD_SIZE : Nat := 128

def HEADER_SIZE : Nat := 5

def PacketType.TELEMETRY : Nat := 1

def PacketType.COMMAND : Nat := 2

def PacketType.STATUS : Nat := 3

def PacketType.SENSOR_DATA : Nat := 4

def PacketType.CONFIG : Nat := 5

def PacketType.BULK_DATA : Nat := 6

def PacketType.PING : Nat := 7

def PacketType.ACK : Nat := 8

def PacketType.CUSTOM_MESSAGE : Nat := 9

-- per type payload sizes, struct.calcsize of the format plus 2 CRC bytes
def TELEMETRY_SIZE : Nat := 27

def COMMAND_SIZE : Nat := 6

def STATUS_SIZE : Nat := 8

def SENSOR_SIZE : Nat := 15

def CONFIG_SIZE : Nat := 5

def PING_SIZE : Nat := 6

def ACK_SIZE : Nat := 6

def CUSTOM_MESSAGE_SIZE : Nat := 128

structure PacketHeader where
  preamble : Nat
  payload_size : Nat
  packet_type : Nat
  network_id : Nat
deriving DecidableEq

-- float valued fields x, y, z, vx, vy, vz are carried as their IEEE-754
-- single precision bit patterns, natural numbers below 4294967296
structure TelemetryPacket where
  header : PacketHeader
  drone_id : Nat
  x : Nat
  y : Nat
  z : Nat
  vx : Nat
  vy : Nat
  vz : Nat
  crc : Nat
deriving DecidableEq

structure CommandPacket where
  header : PacketHeader
  command_id : Nat
  target_id : Nat
  param : Nat
  crc : Nat
deriving DecidableEq

structure StatusPacket where
  header : PacketHeader
  drone_id : Nat
  status_code : Nat
  battery_mv : Nat
  error_flags : Nat
  crc : Nat
deriving DecidableEq

structure SensorPacket where
  header : PacketHeader
  sensor_id : Nat
  value1 : Nat
  value2 : Nat
  value3 : Nat
  crc : Nat
deriving DecidableEq

structure ConfigPacket where
  header : PacketHeader
  network_id : Nat
  wifi_channel : Nat
  tx_power : Nat
  crc : Nat
deriving DecidableEq

structure PingPacket where
  header : PacketHeader
  timestamp : Nat
  crc : Nat
deriving DecidableEq

structure AckPacket where
  header : PacketHeader
  ack_type : Nat
  ack_id : Nat
  status : Nat
  crc : Nat
deriving DecidableEq

structure CustomMessagePacket where
  header : PacketHeader
  custom_data : List Nat
  crc : Nat
deriving DecidableEq

-- the argument of pack_packet: one of the dataclasses, or raw bytes
inductive Packet where
  | telemetry (p : TelemetryPacket)
  | command (p : CommandPacket)
  | status (p : StatusPacket)
  | sensor (p : SensorPacket)
  | config (p : ConfigPacket)
  | ping (p : PingPacket)
  | ack (p : AckPacket)
  | custom (p : CustomMessagePacket)
  | bulk (raw : List Nat)
deriving DecidableEq

-- the result of unpack_packet: a typed packet, or the raw bulk payload
inductive UnpackedPacket where
  | typed (p : Packet)
  | bulkData (data : List Nat)
deriving DecidableEq

def Packet.headerOf : Packet → PacketHeader
  | .telemetry p => p.header
  | .command p => p.header
  | .status p => p.header
  | .sensor p => p.header
  | .config p => p.header
  | .ping p => p.header
  | .ack p => p.header
  | .custom p => p.header
  | .bulk _ => ⟨0, 0, 0, 0⟩

-- struct.pack of the "<HBBB" header
def packHeader (h : PacketHeader) : List Nat :=
  u16le h.preamble ++ u8le h.payload_size ++ u8le h.packet_type ++ u8le h.network_id

-- the type specific data section of pack_packet (struct.pack per variant);
-- the "<126s" format pads or truncates custom_data to exactly 126 bytes
def Packet.dataOf : Packet → List Nat
  | .telemetry p => u8le p.drone_id ++ u32le p.x ++ u32le p.y ++ u32le p.z
      ++ u32le p.vx ++ u32le p.vy ++ u32le p.vz
  | .command p => u8le p.command_id ++ u8le p.target_id ++ u16le p.param
  | .status p => u8le p.drone_id ++ u8le p.status_code ++ u16le p.battery_mv ++ u16le p.error_flags
  | .sensor p => u8le p.sensor_id ++ u32le p.value1 ++ u32le p.value2 ++ u32le p.value3
  | .config p => u8le p.network_id ++ u8le p.wifi_channel ++ u8le p.tx_power
  | .ping p => u32le p.timestamp
  | .ack p => u8le p.ack_type ++ u8le p.ack_id ++ u16le p.status
  | .custom p => p.custom_data.take 126 ++ List.replicate (126 - p.custom_data.length) 0
  | .bulk _ => []

-- pack_packet: header, then data, then the CRC16 of header+data with the
-- CRC field zeroed, little-endian; raw bytes pass through unchanged
def pack_packet : Packet → List Nat
  | .bulk raw => raw
  | p => packHeader p.headerOf ++ p.dataOf
      ++ u16le (calculate_crc16 (packHeader p.headerOf ++ p.dataOf ++ [0, 0]))

-- the CRC16 value pack_packet stores for a typed packet
def Packet.crcOf (p : Packet) : Nat :=
  calculate_crc16 (packHeader p.headerOf ++ p.dataOf ++ [0, 0])

-- struct.unpack("<H", bytes) on the two trailing CRC bytes
def rdU16pair : List Nat → Nat
  | [b0, b1] => rdU16 b0 b1
  | _ => 0

-- ## unpack_packet field parsers: struct.unpack per variant; a size that
-- does not match the format raises struct.error in the source, which the
-- surrounding try block turns into None, modelled here by Option.none

def parseTelemetry : List Nat → Option (Nat × Nat × Nat × Nat × Nat × Nat × Nat)
  | [b0, x0, x1, x2, x3, y0, y1, y2, y3, z0, z1, z2, z3,
     a0, a1, a2, a3, b4, b5, b6, b7, c0, c1, c2, c3] =>
      some (b0, rdU32 x0 x1 x2 x3, rdU32 y0 y1 y2 y3, rdU32 z0 z1 z2 z3,
        rdU32 a0 a1 a2 a3, rdU32 b4 b5 b6 b7, rdU32 c0 c1 c2 c3)
  | _ => none

def parseCommand : List Nat → Option (Nat × Nat × Nat)
  | [c, t, p0, p1] => some (c, t, rdU16 p0 p1)
  | _ => none

def parseStatus : List Nat → Option (Nat × Nat × Nat × Nat)
  | [d, s, b0, b1, e0, e1] => some (d, s, rdU16 b0 b1, rdU16 e0 e1)
  | _ => none

def parseSensor : List Nat → Option (Nat × Nat × Nat × Nat)
  | [s, x0, x1, x2, x3, y0, y1, y2, y3, z0, z1, z2, z3] =>
      some (s, rdU32 x0 x1 x2 x3, rdU32 y0 y1 y2 y3, rdU32 z0 z1 z2 z3)
  | _ => none

def parseConfig : List Nat → Option (Nat × Nat × Nat)
  | [n, w, t] => some (n, w, t)
  | _ => none

def parsePing : List Nat → Option Nat
  | [t0, t1, t2, t3] => some (rdU32 t0 t1 t2 t3)
  | _ => none

def parseAck : List Nat → Option (Nat × Nat × Nat)
  | [a, i, s0, s1] => some (a, i, rdU16 s0 s1)
  | _ => none

def parseCustom (data : List Nat) : Option (List Nat) :=
  if data.length = 126 then some data else none

-- unpack_packet: verify the CRC16 over header and payload with the CRC
-- field zeroed, then dispatch on packet_type, rejecting a payload_size
-- that is not the expected size for the type; every rejection is none
def unpack_packet (header : PacketHeader) (payload : List Nat) : Option UnpackedPacket :=
  if payload.length < 2 then none
  else
    let received_crc := rdU16pair (payload.drop (payload.length - 2))
    let body := payload.take (payload.length - 2)
    let full_data := packHeader header ++ body ++ [0, 0]
    let calculated_crc := calculate_crc16 full_data
    if calculated_crc ≠ received_crc then none
    else if header.packet_type = PacketType.TELEMETRY then
      if header.payload_size ≠ TELEMETRY_SIZE then none
      else match parseTelemetry body with
        | some (d, x, y, z, vx, vy, vz) =>
            some (.typed (.telemetry ⟨header, d, x, y, z, vx, vy, vz, received_crc⟩))
        | none => none
    else if header.packet_type = PacketType.COMMAND then
      if header.payload_size ≠ COMMAND_SIZE then none
      else match parseCommand body with
        | some (c, t, pa) => some (.typed (.command ⟨header, c, t, pa, received_crc⟩))
        | none => none
    else if header.packet_type = PacketType.STATUS then
      if header.payload_size ≠ STATUS_SIZE then none
      else match parseStatus body with
        | some (d, s, b, e) => some (.typed (.status ⟨header, d, s, b, e, received_crc⟩))
        | none => none
    else if header.packet_type = PacketType.SENSOR_DATA then
      if header.payload_size ≠ SENSOR_SIZE then none
      else match parseSensor body with
        | some (s, v1, v2, v3) => some (.typed (.sensor ⟨header, s, v1, v2, v3, received_crc⟩))
        | none => none
    else if header.packet_type = PacketType.CONFIG then
      if header.payload_size ≠ CONFIG_SIZE then none
      else match parseConfig body with
        | some (n, w, t) => some (.typed (.config ⟨header, n, w, t, received_crc⟩))
        | none => none
    else if header.packet_type = PacketType.BULK_DATA then
      some (.bulkData body)
    else if header.packet_type = PacketType.PING then
      if header.payload_size ≠ PING_SIZE then none
      else match parsePing body with
        | some t => some (.typed (.ping ⟨header, t, received_crc⟩))
        | none => none
    else if header.packet_type = PacketType.ACK then
      if header.payload_size ≠ ACK_SIZE then none
      else match parseAck body with
        | some (a, i, s) => some (.typed (.ack ⟨header, a, i, s, received_crc⟩))
        | none => none
    else if header.packet_type = PacketType.CUSTOM_MESSAGE then
      if header.payload_size ≠ CUSTOM_MESSAGE_SIZE then none
      else match parseCustom body with
        | some d => some (.typed (.custom ⟨header, d, received_crc⟩))
        | none => none
    else none

-- ## Well-formedness: field values inside their declared wire ranges, the
-- header carrying the preamble sentinel and the correct payload_size and
-- packet_type, and the crc field equal to the CRC16 pack_packet stores

def headerWf (h : PacketHeader) (size ty : Nat) : Prop :=
  h.preamble = PACKET_PREAMBLE ∧ h.payload_size = size ∧ h.packet_type = ty ∧ h.network_id < 256

def Packet.wf : Packet → Prop
  | .telemetry p => headerWf p.header TELEMETRY_SIZE PacketType.TELEMETRY ∧
      p.drone_id < 256 ∧ p.x < 4294967296 ∧ p.y < 4294967296 ∧ p.z < 4294967296 ∧
      p.vx < 4294967296 ∧ p.vy < 4294967296 ∧ p.vz < 4294967296 ∧
      p.crc = Packet.crcOf (.telemetry p)
  | .command p => headerWf p.header COMMAND_SIZE PacketType.COMMAND ∧
      p.command_id < 256 ∧ p.target_id < 256 ∧ p.param < 65536 ∧
      p.crc = Packet.crcOf (.command p)
  | .status p => headerWf p.header STATUS_SIZE PacketType.STATUS ∧
      p.drone_id < 256 ∧ p.status_code < 256 ∧ p.battery_mv < 65536 ∧ p.error_flags < 65536 ∧
      p.crc = Packet.crcOf (.status p)
  | .sensor p => headerWf p.header SENSOR_SIZE PacketType.SENSOR_DATA ∧
      p.sensor_id < 256 ∧ p.value1 < 4294967296 ∧ p.value2 < 4294967296 ∧
      p.value3 < 4294967296 ∧ p.crc = Packet.crcOf (.sensor p)
  | .config p => headerWf p.header CONFIG_SIZE PacketType.CONFIG ∧
      p.network_id < 256 ∧ p.wifi_channel < 256 ∧ p.tx_power < 256 ∧
      p.crc = Packet.crcOf (.config p)
  | .ping p => headerWf p.header PING_SIZE PacketType.PING ∧
      p.timestamp < 4294967296 ∧ p.crc = Packet.crcOf (.ping p)
  | .ack p => headerWf p.header ACK_SIZE PacketType.ACK ∧
      p.ack_type < 256 ∧ p.ack_id < 256 ∧ p.status < 65536 ∧
      p.crc = Packet.crcOf (.ack p)
  | .custom p => headerWf p.header CUSTOM_MESSAGE_SIZE PacketType.CUSTOM_MESSAGE ∧
      p.custom_data.length = 126 ∧ (∀ b ∈ p.custom_data, b < 256) ∧
      p.crc = Packet.crcOf (.custom p)
  | .bulk _ => False

-- ## Round trip lemmas

theorem calculate_crc16_lt (l : List Nat) : calculate_crc16 l < 65536 := by
  unfold calculate_crc16
  rw [show (65535 : Nat) = 2 ^ 16 - 1 by norm_num, Nat.and_pow_two_sub_one_eq_mod]
  exact Nat.mod_lt _ (by norm_num)

theorem packHeader_length (h : PacketHeader) : (packHeader h).length = 5 := by
  simp [packHeader, u16le, u8le]

theorem drop5_packHeader (h : PacketHeader) (rest : List Nat) :
    (packHeader h ++ rest).drop 5 = rest :=
  List.drop_left' (packHeader_length h)

theorem take_body (data tail : List Nat) (hl : tail.length = 2) :
    (data ++ tail).take ((data ++ tail).length - 2) = data := by
  apply List.take_left'
  simp [hl]

theorem drop_tail (data tail : List Nat) (hl : tail.length = 2) :
    (data ++ tail).drop ((data ++ tail).length - 2) = tail := by
  apply List.drop_left'
  simp [hl]

theorem rdU16pair_u16le (c : Nat) (hc : c < 65536) : rdU16pair (u16le c) = c := by
  simp only [u16le, rdU16pair]
  exact rdU16_u16le hc

theorem roundtrip_telemetry (t : TelemetryPacket) (h : (Packet.telemetry t).wf) :
    unpack_packet t.header ((pack_packet (.telemetry t)).drop 5) =
      some (.typed (.telemetry t)) := by
  obtain ⟨⟨hpre, hps, hty, hnet⟩, hid, hx, hy, hz, hvx, hvy, hvz, hcrc⟩ := h
  have hclt : Packet.crcOf (.telemetry t) < 65536 := calculate_crc16_lt _
  have hdata : (Packet.dataOf (.telemetry t)).length = 25 := by
    simp [Packet.dataOf, u8le, u32le]
  have htl : (u16le (Packet.crcOf (.telemetry t))).length = 2 := by simp [u16le]
  have hpack : (pack_packet (.telemetry t)).drop 5 =
      Packet.dataOf (.telemetry t) ++ u16le (Packet.crcOf (.telemetry t)) := by
    show (packHeader _ ++ _ ++ _).drop 5 = _
    rw [List.append_assoc]
    exact drop5_packHeader _ _
  rw [hpack]
  unfold unpack_packet
  rw [take_body _ _ htl, drop_tail _ _ htl, rdU16pair_u16le _ hclt]
  rw [if_neg (by simp [htl, hdata])]
  have hcalc : calculate_crc16 (packHeader t.header ++ Packet.dataOf (.telemetry t) ++ [0, 0]) =
      Packet.crcOf (.telemetry t) := by
    simp [Packet.crcOf, Packet.headerOf, List.append_assoc]
  have hparse : parseTelemetry (Packet.dataOf (.telemetry t)) =
      some (t.drone_id, t.x, t.y, t.z, t.vx, t.vy, t.vz) := by
    simp only [Packet.dataOf, u8le, u32le, List.cons_append, List.nil_append]
    simp only [parseTelemetry]
    rw [Nat.mod_eq_of_lt hid, rdU32_u32le hx, rdU32_u32le hy, rdU32_u32le hz,
      rdU32_u32le hvx, rdU32_u32le hvy, rdU32_u32le hvz]
  simp only [hcalc, hparse, hty, hps, ne_eq, not_true_eq_false, if_false, if_true,
    ite_false, ite_true]
  rw [← hcrc]

theorem roundtrip_command (t : CommandPacket) (h : (Packet.command t).wf) :
    unpack_packet t.header ((pack_packet (.command t)).drop 5) =
      some (.typed (.command t)) := by
  obtain ⟨⟨hpre, hps, hty, hnet⟩, hc, hta, hpa, hcrc⟩ := h
  have hclt : Packet.crcOf (.command t) < 65536 := calculate_crc16_lt _
  have htl : (u16le (Packet.crcOf (.command t))).length = 2 := by simp [u16le]
  have hdata : (Packet.dataOf (.command t)).length = 4 := by
    simp [Packet.dataOf, u8le, u16le]
  have hpack : (pack_packet (.command t)).drop 5 =
      Packet.dataOf (.command t) ++ u16le (Packet.crcOf (.command t)) := by
    show (packHeader _ ++ _ ++ _).drop 5 = _
    rw [List.append_assoc]
    exact drop5_packHeader _ _
  rw [hpack]
  unfold unpack_packet
  rw [take_body _ _ htl, drop_tail _ _ htl, rdU16pair_u16le _ hclt]
  rw [if_neg (by simp [htl, hdata])]
  have hcalc : calculate_crc16 (packHeader t.header ++ Packet.dataOf (.command t) ++ [0, 0]) =
      Packet.crcOf (.command t) := by
    simp [Packet.crcOf, Packet.headerOf, List.append_assoc]
  have hparse : parseCommand (Packet.dataOf (.command t)) =
      some (t.command_id, t.target_id, t.param) := by
    simp only [Packet.dataOf, u8le, u16le, List.cons_append, List.nil_append]
    simp only [parseCommand]
    rw [Nat.mod_eq_of_lt hc, Nat.mod_eq_of_lt hta, rdU16_u16le hpa]
  have htyne : t.header.packet_type ≠ PacketType.TELEMETRY := by
    rw [hty]; decide
  simp only [hcalc, hparse, hty, hps, htyne, ne_eq, not_true_eq_false, if_false, if_true,
    ite_false, ite_true, not_false_eq_true]
  rw [← hcrc]
  simp [PacketType.TELEMETRY, PacketType.COMMAND, PacketType.STATUS, PacketType.SENSOR_DATA, PacketType.CONFIG, PacketType.BULK_DATA, PacketType.PING, PacketType.ACK, PacketType.CUSTOM_MESSAGE, TELEMETRY_SIZE, COMMAND_SIZE, STATUS_SIZE, SENSOR_SIZE, CONFIG_SIZE, PING_SIZE, ACK_SIZE, CUSTOM_MESSAGE_SIZE]

theorem roundtrip_status (t : StatusPacket) (h : (Packet.status t).wf) :
    unpack_packet t.header ((pack_packet (.status t)).drop 5) =
      some (.typed (.status t)) := by
  obtain ⟨⟨hpre, hps, hty, hnet⟩, hd, hs, hb, he, hcrc⟩ := h
  have hclt : Packet.crcOf (.status t) < 65536 := calculate_crc16_lt _
  have htl : (u16le (Packet.crcOf (.status t))).length = 2 := by simp [u16le]
  have hdata : (Packet.dataOf (.status t)).length = 6 := by
    simp [Packet.dataOf, u8le, u16le]
  have hpack : (pack_packet (.status t)).drop 5 =
      Packet.dataOf (.status t) ++ u16le (Packet.crcOf (.status t)) := by
    show (packHeader _ ++ _ ++ _).drop 5 = _
    rw [List.append_assoc]
    exact drop5_packHeader _ _
  rw [hpack]
  unfold unpack_packet
  rw [take_body _ _ htl, drop_tail _ _ htl, rdU16pair_u16le _ hclt]
  rw [if_neg (by simp [htl, hdata])]
  have hcalc : calculate_crc16 (packHeader t.header ++ Packet.dataOf (.status t) ++ [0, 0]) =
      Packet.crcOf (.status t) := by
    simp [Packet.crcOf, Packet.headerOf, List.append_assoc]
  have hparse : parseStatus (Packet.dataOf (.status t)) =
      some (t.drone_id, t.status_code, t.battery_mv, t.error_flags) := by
    simp only [Packet.dataOf, u8le, u16le, List.cons_append, List.nil_append]
    simp only [parseStatus]
    rw [Nat.mod_eq_of_lt hd, Nat.mod_eq_of_lt hs, rdU16_u16le hb, rdU16_u16le he]
  have ht1 : t.header.packet_type ≠ PacketType.TELEMETRY := by rw [hty]; decide
  have ht2 : t.header.packet_type ≠ PacketType.COMMAND := by rw [hty]; decide
  simp only [hcalc, hparse, hty, hps, ht1, ht2, ne_eq, not_true_eq_false, if_false, if_true,
    ite_false, ite_true, not_false_eq_true]
  rw [← hcrc]
  simp [PacketType.TELEMETRY, PacketType.COMMAND, PacketType.STATUS, PacketType.SENSOR_DATA, PacketType.CONFIG, PacketType.BULK_DATA, PacketType.PING, PacketType.ACK, PacketType.CUSTOM_MESSAGE, TELEMETRY_SIZE, COMMAND_SIZE, STATUS_SIZE, SENSOR_SIZE, CONFIG_SIZE, PING_SIZE, ACK_SIZE, CUSTOM_MESSAGE_SIZE]

theorem roundtrip_sensor (t : SensorPacket) (h : (Packet.sensor t).wf) :
    unpack_packet t.header ((pack_packet (.sensor t)).drop 5) =
      some (.typed (.sensor t)) := by
  obtain ⟨⟨hpre, hps, hty, hnet⟩, hs, h1, h2, h3, hcrc⟩ := h
  have hclt : Packet.crcOf (.sensor t) < 65536 := calculate_crc16_lt _
  have htl : (u16le (Packet.crcOf (.sensor t))).length = 2 := by simp [u16le]
  have hdata : (Packet.dataOf (.sensor t)).length = 13 := by
    simp [Packet.dataOf, u8le, u32le]
  have hpack : (pack_packet (.sensor t)).drop 5 =
      Packet.dataOf (.sensor t) ++ u16le (Packet.crcOf (.sensor t)) := by
    show (packHeader _ ++ _ ++ _).drop 5 = _
    rw [List.append_assoc]
    exact drop5_packHeader _ _
  rw [hpack]
  unfold unpack_packet
  rw [take_body _ _ htl, drop_tail _ _ htl, rdU16pair_u16le _ hclt]
  rw [if_neg (by simp [htl, hdata])]
  have hcalc : calculate_crc16 (packHeader t.header ++ Packet.dataOf (.sensor t) ++ [0, 0]) =
      Packet.crcOf (.sensor t) := by
    simp [Packet.crcOf, Packet.headerOf, List.append_assoc]
  have hparse : parseSensor (Packet.dataOf (.sensor t)) =
      some (t.sensor_id, t.value1, t.value2, t.value3) := by
    simp only [Packet.dataOf, u8le, u32le, List.cons_append, List.nil_append]
    simp only [parseSensor]
    rw [Nat.mod_eq_of_lt hs, rdU32_u32le h1, rdU32_u32le h2, rdU32_u32le h3]
  have ht1 : t.header.packet_type ≠ PacketType.TELEMETRY := by rw [hty]; decide
  have ht2 : t.header.packet_type ≠ PacketType.COMMAND := by rw [hty]; decide
  have ht3 : t.header.packet_type ≠ PacketType.STATUS := by rw [hty]; decide
  simp only [hcalc, hparse, hty, hps, ht1, ht2, ht3, ne_eq, not_true_eq_false, if_false,
    if_true, ite_false, ite_true, not_false_eq_true]
  rw [← hcrc]
  simp [PacketType.TELEMETRY, PacketType.COMMAND, PacketType.STATUS, PacketType.SENSOR_DATA, PacketType.CONFIG, PacketType.BULK_DATA, PacketType.PING, PacketType.ACK, PacketType.CUSTOM_MESSAGE, TELEMETRY_SIZE, COMMAND_SIZE, STATUS_SIZE, SENSOR_SIZE, CONFIG_SIZE, PING_SIZE, ACK_SIZE, CUSTOM_MESSAGE_SIZE]

theorem roundtrip_config (t : ConfigPacket) (h : (Packet.config t).wf) :
    unpack_packet t.header ((pack_packet (.config t)).drop 5) =
      some (.typed (.config t)) := by
  obtain ⟨⟨hpre, hps, hty, hnet⟩, hn, hw, hx, hcrc⟩ := h
  have hclt : Packet.crcOf (.config t) < 65536 := calculate_crc16_lt _
  have htl : (u16le (Packet.crcOf (.config t))).length = 2 := by simp [u16le]
  have hdata : (Packet.dataOf (.config t)).length = 3 := by
    simp [Packet.dataOf, u8le]
  have hpack : (pack_packet (.config t)).drop 5 =
      Packet.dataOf (.config t) ++ u16le (Packet.crcOf (.config t)) := by
    show (packHeader _ ++ _ ++ _).drop 5 = _
    rw [List.append_assoc]
    exact drop5_packHeader _ _
  rw [hpack]
  unfold unpack_packet
  rw [take_body _ _ htl, drop_tail _ _ htl, rdU16pair_u16le _ hclt]
  rw [if_neg (by simp [htl, hdata])]
  have hcalc : calculate_crc16 (packHeader t.header ++ Packet.dataOf (.config t) ++ [0, 0]) =
      Packet.crcOf (.config t) := by
    simp [Packet.crcOf, Packet.headerOf, List.append_assoc]
  have hparse : parseConfig (Packet.dataOf (.config t)) =
      some (t.network_id, t.wifi_channel, t.tx_power) := by
    simp only [Packet.dataOf, u8le, List.cons_append, List.nil_append]
    simp only [parseConfig]
    rw [Nat.mod_eq_of_lt hn, Nat.mod_eq_of_lt hw, Nat.mod_eq_of_lt hx]
  have ht1 : t.header.packet_type ≠ PacketType.TELEMETRY := by rw [hty]; decide
  have ht2 : t.header.packet_type ≠ PacketType.COMMAND := by rw [hty]; decide
  have ht3 : t.header.packet_type ≠ PacketType.STATUS := by rw [hty]; decide
  have ht4 : t.header.packet_type ≠ PacketType.SENSOR_DATA := by rw [hty]; decide
  simp only [hcalc, hparse, hty, hps, ht1, ht2, ht3, ht4, ne_eq, not_true_eq_false, if_false,
    if_true, ite_false, ite_true, not_false_eq_true]
  rw [← hcrc]
  simp [PacketType.TELEMETRY, PacketType.COMMAND, PacketType.STATUS, PacketType.SENSOR_DATA, PacketType.CONFIG, PacketType.BULK_DATA, PacketType.PING, PacketType.ACK, PacketType.CUSTOM_MESSAGE, TELEMETRY_SIZE, COMMAND_SIZE, STATUS_SIZE, SENSOR_SIZE, CONFIG_SIZE, PING_SIZE, ACK_SIZE, CUSTOM_MESSAGE_SIZE]

theorem roundtrip_ping (t : PingPacket) (h : (Packet.ping t).wf) :
    unpack_packet t.header ((pack_packet (.ping t)).drop 5) =
      some (.typed (.ping t)) := by
  obtain ⟨⟨hpre, hps, hty, hnet⟩, hts, hcrc⟩ := h
  have hclt : Packet.crcOf (.ping t) < 65536 := calculate_crc16_lt _
  have htl : (u16le (Packet.crcOf (.ping t))).length = 2 := by simp [u16le]
  have hdata : (Packet.dataOf (.ping t)).length = 4 := by
    simp [Packet.dataOf, u32le]
  have hpack : (pack_packet (.ping t)).drop 5 =
      Packet.dataOf (.ping t) ++ u16le (Packet.crcOf (.ping t)) := by
    show (packHeader _ ++ _ ++ _).drop 5 = _
    rw [List.append_assoc]
    exact drop5_packHeader _ _
  rw [hpack]
  unfold unpack_packet
  rw [take_body _ _ htl, drop_tail _ _ htl, rdU16pair_u16le _ hclt]
  rw [if_neg (by simp [htl, hdata])]
  have hcalc : calculate_crc16 (packHeader t.header ++ Packet.dataOf (.ping t) ++ [0, 0]) =
      Packet.crcOf (.ping t) := by
    simp [Packet.crcOf, Packet.headerOf, List.append_assoc]
  have hparse : parsePing (Packet.dataOf (.ping t)) = some t.timestamp := by
    simp only [Packet.dataOf, u32le]
    simp only [parsePing]
    rw [rdU32_u32le hts]
  have ht1 : t.header.packet_type ≠ PacketType.TELEMETRY := by rw [hty]; decide
  have ht2 : t.header.packet_type ≠ PacketType.COMMAND := by rw [hty]; decide
  have ht3 : t.header.packet_type ≠ PacketType.STATUS := by rw [hty]; decide
  have ht4 : t.header.packet_type ≠ PacketType.SENSOR_DATA := by rw [hty]; decide
  have ht5 : t.header.packet_type ≠ PacketType.CONFIG := by rw [hty]; decide
  have ht6 : t.header.packet_type ≠ PacketType.BULK_DATA := by rw [hty]; decide
  simp only [hcalc, hparse, hty, hps, ht1, ht2, ht3, ht4, ht5, ht6, ne_eq, not_true_eq_false,
    if_false, if_true, ite_false, ite_true, not_false_eq_true]
  rw [← hcrc]
  simp [PacketType.TELEMETRY, PacketType.COMMAND, PacketType.STATUS, PacketType.SENSOR_DATA, PacketType.CONFIG, PacketType.BULK_DATA, PacketType.PING, PacketType.ACK, PacketType.CUSTOM_MESSAGE, TELEMETRY_SIZE, COMMAND_SIZE, STATUS_SIZE, SENSOR_SIZE, CONFIG_SIZE, PING_SIZE, ACK_SIZE, CUSTOM_MESSAGE_SIZE]

theorem roundtrip_ack (t : AckPacket) (h : (Packet.ack t).wf) :
    unpack_packet t.header ((pack_packet (.ack t)).drop 5) =
      some (.typed (.ack t)) := by
  obtain ⟨⟨hpre, hps, hty, hnet⟩, ha, hi, hs, hcrc⟩ := h
  have hclt : Packet.crcOf (.ack t) < 65536 := calculate_crc16_lt _
  have htl : (u16le (Packet.crcOf (.ack t))).length = 2 := by simp [u16le]
  have hdata : (Packet.dataOf (.ack t)).length = 4 := by
    simp [Packet.dataOf, u8le, u16le]
  have hpack : (pack_packet (.ack t)).drop 5 =
      Packet.dataOf (.ack t) ++ u16le (Packet.crcOf (.ack t)) := by
    show (packHeader _ ++ _ ++ _).drop 5 = _
    rw [List.append_assoc]
    exact drop5_packHeader _ _
  rw [hpack]
  unfold unpack_packet
  rw [take_body _ _ htl, drop_tail _ _ htl, rdU16pair_u16le _ hclt]
  rw [if_neg (by simp [htl, hdata])]
  have hcalc : calculate_crc16 (packHeader t.header ++ Packet.dataOf (.ack t) ++ [0, 0]) =
      Packet.crcOf (.ack t) := by
    simp [Packet.crcOf, Packet.headerOf, List.append_assoc]
  have hparse : parseAck (Packet.dataOf (.ack t)) =
      some (t.ack_type, t.ack_id, t.status) := by
    simp only [Packet.dataOf, u8le, u16le, List.cons_append, List.nil_append]
    simp only [parseAck]
    rw [Nat.mod_eq_of_lt ha, Nat.mod_eq_of_lt hi, rdU16_u16le hs]
  have ht1 : t.header.packet_type ≠ PacketType.TELEMETRY := by rw [hty]; decide
  have ht2 : t.header.packet_type ≠ PacketType.COMMAND := by rw [hty]; decide
  have ht3 : t.header.packet_type ≠ PacketType.STATUS := by rw [hty]; decide
  have ht4 : t.header.packet_type ≠ PacketType.SENSOR_DATA := by rw [hty]; decide
  have ht5 : t.header.packet_type ≠ PacketType.CONFIG := by rw [hty]; decide
  have ht6 : t.header.packet_type ≠ PacketType.BULK_DATA := by rw [hty]; decide
  have ht7 : t.header.packet_type ≠ PacketType.PING := by rw [hty]; decide
  simp only [hcalc, hparse, hty, hps, ht1, ht2, ht3, ht4, ht5, ht6, ht7, ne_eq,
    not_true_eq_false, if_false, if_true, ite_false, ite_true, not_false_eq_true]
  rw [← hcrc]
  simp [PacketType.TELEMETRY, PacketType.COMMAND, PacketType.STATUS, PacketType.SENSOR_DATA, PacketType.CONFIG, PacketType.BULK_DATA, PacketType.PING, PacketType.ACK, PacketType.CUSTOM_MESSAGE, TELEMETRY_SIZE, COMMAND_SIZE, STATUS_SIZE, SENSOR_SIZE, CONFIG_SIZE, PING_SIZE, ACK_SIZE, CUSTOM_MESSAGE_SIZE]

theorem roundtrip_custom (t : CustomMessagePacket) (h : (Packet.custom t).wf) :
    unpack_packet t.header ((pack_packet (.custom t)).drop 5) =
      some (.typed (.custom t)) := by
  obtain ⟨⟨hpre, hps, hty, hnet⟩, hlen, hbytes, hcrc⟩ := h
  have hclt : Packet.crcOf (.custom t) < 65536 := calculate_crc16_lt _
  have htl : (u16le (Packet.crcOf (.custom t))).length = 2 := by simp [u16le]
  have hdeq : Packet.dataOf (.custom t) = t.custom_data := by
    simp [Packet.dataOf, hlen, List.take_of_length_le (le_of_eq hlen)]
  have hdata : (Packet.dataOf (.custom t)).length = 126 := by rw [hdeq, hlen]
  have hpack : (pack_packet (.custom t)).drop 5 =
      Packet.dataOf (.custom t) ++ u16le (Packet.crcOf (.custom t)) := by
    show (packHeader _ ++ _ ++ _).drop 5 = _
    rw [List.append_assoc]
    exact drop5_packHeader _ _
  rw [hpack]
  unfold unpack_packet
  rw [take_body _ _ htl, drop_tail _ _ htl, rdU16pair_u16le _ hclt]
  rw [if_neg (by simp [htl, hdata])]
  have hcalc : calculate_crc16 (packHeader t.header ++ Packet.dataOf (.custom t) ++ [0, 0]) =
      Packet.crcOf (.custom t) := by
    simp [Packet.crcOf, Packet.headerOf, List.append_assoc]
  have hparse : parseCustom (Packet.dataOf (.custom t)) = some t.custom_data := by
    rw [hdeq]
    simp [parseCustom, hlen]
  have ht1 : t.header.packet_type ≠ PacketType.TELEMETRY := by rw [hty]; decide
  have ht2 : t.header.packet_type ≠ PacketType.COMMAND := by rw [hty]; decide
  have ht3 : t.header.packet_type ≠ PacketType.STATUS := by rw [hty]; decide
  have ht4 : t.header.packet_type ≠ PacketType.SENSOR_DATA := by rw [hty]; decide
  have ht5 : t.header.packet_type ≠ PacketType.CONFIG := by rw [hty]; decide
  have ht6 : t.header.packet_type ≠ PacketType.BULK_DATA := by rw [hty]; decide
  have ht7 : t.header.packet_type ≠ PacketType.PING := by rw [hty]; decide
  have ht8 : t.header.packet_type ≠ PacketType.ACK := by rw [hty]; decide
  simp only [hcalc, hparse, hty, hps, ht1, ht2, ht3, ht4, ht5, ht6, ht7, ht8, ne_eq,
    not_true_eq_false, if_false, if_true, ite_false, ite_true, not_false_eq_true]
  rw [← hcrc]
  simp [PacketType.TELEMETRY, PacketType.COMMAND, PacketType.STATUS, PacketType.SENSOR_DATA, PacketType.CONFIG, PacketType.BULK_DATA, PacketType.PING, PacketType.ACK, PacketType.CUSTOM_MESSAGE, TELEMETRY_SIZE, COMMAND_SIZE, STATUS_SIZE, SENSOR_SIZE, CONFIG_SIZE, PING_SIZE, ACK_SIZE, CUSTOM_MESSAGE_SIZE]

-- combined round trip over all typed packet variants
theorem unpack_pack (p : Packet) (h : p.wf) :
    unpack_packet p.headerOf ((pack_packet p).drop 5) = some (.typed p) := by
  cases p with
  | telemetry t => exact roundtrip_telemetry t h
  | command t => exact roundtrip_command t h
  | status t => exact roundtrip_status t h
  | sensor t => exact roundtrip_sensor t h
  | config t => exact roundtrip_config t h
  | ping t => exact roundtrip_ping t h
  | ack t => exact roundtrip_ack t h
  | custom t => exact roundtrip_custom t h
  | bulk raw => exact absurd h (by simp [Packet.wf])

-- ## Single byte corruption machinery

theorem set_eq_take_cons_drop {l : List Nat} {i : Nat} (h : i < l.length) (b : Nat) :
    l.set i b = l.take i ++ b :: l.drop (i + 1) := by
  induction l generalizing i with
  | nil => simp at h
  | cons a t ih =>
    cases i with
    | zero => simp
    | succ j =>
      simp only [List.set_cons_succ, List.take_succ_cons, List.drop_succ_cons,
        List.cons_append, List.cons.injEq, true_and]
      exact ih (by simpa using h)

theorem eq_take_cons_drop {l : List Nat} {i : Nat} (h : i < l.length) :
    l = l.take i ++ l[i] :: l.drop (i + 1) := by
  conv_lhs => rw [← List.take_append_drop i l]
  rw [List.getElem_cons_drop l i h]

-- folding equal byte suffixes over distinct CRC states keeps them distinct
theorem crc_fold_suffix_ne {suf : List Nat} {c1 c2 : Nat} (h1 : c1 < 65536) (h2 : c2 < 65536)
    (hs : ∀ b ∈ suf, b < 256) (hne : c1 ≠ c2) :
    suf.foldl crcByte c1 ≠ suf.foldl crcByte c2 := by
  induction suf generalizing c1 c2 with
  | nil => exact hne
  | cons b t ih =>
    simp only [List.foldl_cons]
    have hb : b < 256 := hs b (List.mem_cons_self _ _)
    exact ih (crcByte_lt h1 hb) (crcByte_lt h2 hb)
      (fun x hx => hs x (List.mem_cons_of_mem b hx))
      (crcByte_inj_state h1 h2 hb hne)

theorem crc_fold_lt {l : List Nat} {c : Nat} (hc : c < 65536) (hl : ∀ b ∈ l, b < 256) :
    l.foldl crcByte c < 65536 := by
  induction l generalizing c with
  | nil => exact hc
  | cons b t ih =>
    exact ih (crcByte_lt hc (hl b (List.mem_cons_self _ _)))
      (fun x hx => hl x (List.mem_cons_of_mem b hx))

-- changing exactly one byte of the folded data changes the fold result
theorem crc_fold_single_byte {pre suf : List Nat} {b1 b2 : Nat}
    (hpre : ∀ x ∈ pre, x < 256) (hsuf : ∀ x ∈ suf, x < 256)
    (hb1 : b1 < 256) (hb2 : b2 < 256) (hne : b1 ≠ b2) {c : Nat} (hc : c < 65536) :
    (pre ++ b1 :: suf).foldl crcByte c ≠ (pre ++ b2 :: suf).foldl crcByte c := by
  induction pre generalizing c with
  | nil =>
    simp only [List.nil_append, List.foldl_cons]
    exact crc_fold_suffix_ne (crcByte_lt hc hb1) (crcByte_lt hc hb2) hsuf
      (crcByte_inj_byte hc hb1 hb2 hne)
  | cons a t ih =>
    simp only [List.cons_append, List.foldl_cons]
    exact ih (fun x hx => hpre x (List.mem_cons_of_mem a hx))
      (crcByte_lt hc (hpre a (List.mem_cons_self _ _)))

-- when every folded byte is below 256 the final 16 bit mask is the identity
theorem calculate_crc16_eq_fold {l : List Nat} (hl : ∀ b ∈ l.take (l.length - 2), b < 256) :
    calculate_crc16 l = (l.take (l.length - 2)).foldl crcByte 0xFFFF := by
  unfold calculate_crc16
  rw [show (65535 : Nat) = 2 ^ 16 - 1 by norm_num]
  exact Nat.and_pow_two_sub_one_of_lt_two_pow (crc_fold_lt (by norm_num) hl)

-- every byte emitted by pack_packet for a well-formed packet is below 256
theorem u8le_bytes_lt (v : Nat) : ∀ x ∈ u8le v, x < 256 := by
  simp [u8le]
  omega

theorem u16le_bytes_lt (v : Nat) : ∀ x ∈ u16le v, x < 256 := by
  simp [u16le]
  constructor <;> omega

theorem u32le_bytes_lt (v : Nat) : ∀ x ∈ u32le v, x < 256 := by
  simp [u32le]
  refine ⟨by omega, by omega, by omega, by omega⟩

theorem packHeader_bytes_lt (h : PacketHeader) : ∀ x ∈ packHeader h, x < 256 := by
  simp only [packHeader]
  intro x hx
  rcases List.mem_append.1 hx with hx | hx
  · rcases List.mem_append.1 hx with hx | hx
    · rcases List.mem_append.1 hx with hx | hx
      · exact u16le_bytes_lt _ x hx
      · exact u8le_bytes_lt _ x hx
    · exact u8le_bytes_lt _ x hx
  · exact u8le_bytes_lt _ x hx

theorem dataOf_bytes_lt (p : Packet) (h : p.wf) : ∀ x ∈ p.dataOf, x < 256 := by
  cases p with
  | telemetry t =>
    simp only [Packet.dataOf]
    intro x hx
    simp only [List.mem_append] at hx
    rcases hx with ((((((hx | hx) | hx) | hx) | hx) | hx) | hx)
    all_goals first
      | exact u8le_bytes_lt _ x hx
      | exact u32le_bytes_lt _ x hx
  | command t =>
    simp only [Packet.dataOf]
    intro x hx
    simp only [List.mem_append] at hx
    rcases hx with ((hx | hx) | hx)
    all_goals first
      | exact u8le_bytes_lt _ x hx
      | exact u16le_bytes_lt _ x hx
  | status t =>
    simp only [Packet.dataOf]
    intro x hx
    simp only [List.mem_append] at hx
    rcases hx with (((hx | hx) | hx) | hx)
    all_goals first
      | exact u8le_bytes_lt _ x hx
      | exact u16le_bytes_lt _ x hx
  | sensor t =>
    simp only [Packet.dataOf]
    intro x hx
    simp only [List.mem_append] at hx
    rcases hx with (((hx | hx) | hx) | hx)
    all_goals first
      | exact u8le_bytes_lt _ x hx
      | exact u32le_bytes_lt _ x hx
  | config t =>
    simp only [Packet.dataOf]
    intro x hx
    simp only [List.mem_append] at hx
    rcases hx with ((hx | hx) | hx)
    all_goals exact u8le_bytes_lt _ x hx
  | ping t =>
    simp only [Packet.dataOf]
    exact u32le_bytes_lt _
  | ack t =>
    simp only [Packet.dataOf]
    intro x hx
    simp only [List.mem_append] at hx
    rcases hx with ((hx | hx) | hx)
    all_goals first
      | exact u8le_bytes_lt _ x hx
      | exact u16le_bytes_lt _ x hx
  | custom t =>
    obtain ⟨_, hlen, hbytes, _⟩ := h
    simp only [Packet.dataOf]
    intro x hx
    rcases List.mem_append.1 hx with hx | hx
    · exact hbytes x (List.mem_of_mem_take hx)
    · have := List.eq_of_mem_replicate hx
      omega
  | bulk raw => exact absurd h (by simp [Packet.wf])

-- shared shape of the encoding of a typed well-formed packet
theorem pack_drop5 (p : Packet) (h : p.wf) :
    (pack_packet p).drop 5 = p.dataOf ++ u16le p.crcOf := by
  cases p with
  | bulk raw => exact absurd h (by simp [Packet.wf])
  | telemetry t =>
    show (packHeader _ ++ _ ++ _).drop 5 = _
    rw [List.append_assoc]; exact drop5_packHeader _ _
  | command t =>
    show (packHeader _ ++ _ ++ _).drop 5 = _
    rw [List.append_assoc]; exact drop5_packHeader _ _
  | status t =>
    show (packHeader _ ++ _ ++ _).drop 5 = _
    rw [List.append_assoc]; exact drop5_packHeader _ _
  | sensor t =>
    show (packHeader _ ++ _ ++ _).drop 5 = _
    rw [List.append_assoc]; exact drop5_packHeader _ _
  | config t =>
    show (packHeader _ ++ _ ++ _).drop 5 = _
    rw [List.append_assoc]; exact drop5_packHeader _ _
  | ping t =>
    show (packHeader _ ++ _ ++ _).drop 5 = _
    rw [List.append_assoc]; exact drop5_packHeader _ _
  | ack t =>
    show (packHeader _ ++ _ ++ _).drop 5 = _
    rw [List.append_assoc]; exact drop5_packHeader _ _
  | custom t =>
    show (packHeader _ ++ _ ++ _).drop 5 = _
    rw [List.append_assoc]; exact drop5_packHeader _ _

-- a CRC mismatch makes unpack_packet reject regardless of the type
theorem unpack_of_crc_ne (header : PacketHeader) (payload : List Nat)
    (h2 : ¬ payload.length < 2)
    (hne : calculate_crc16 (packHeader header ++ payload.take (payload.length - 2) ++ [0, 0]) ≠
      rdU16pair (payload.drop (payload.length - 2))) :
    unpack_packet header payload = none := by
  unfold unpack_packet
  rw [if_neg h2]
  simp only [if_pos hne]

theorem calc_crc_body (hdr : PacketHeader) (body : List Nat)
    (hb : ∀ x ∈ packHeader hdr ++ body, x < 256) :
    calculate_crc16 (packHeader hdr ++ body ++ [0, 0]) =
      (packHeader hdr ++ body).foldl crcByte 0xFFFF := by
  unfold calculate_crc16
  rw [take_body _ _ (by rfl)]
  rw [show (65535 : Nat) = 2 ^ 16 - 1 by norm_num]
  exact Nat.and_pow_two_sub_one_of_lt_two_pow (crc_fold_lt (by norm_num) hb)

-- changing exactly one payload byte of an encoded packet to a different
-- value makes the recomputed CRC16 disagree with the stored CRC16, and
-- unpack_packet rejects
theorem single_byte_corruption (p : Packet) (h : p.wf) (i b : Nat)
    (hi : i < ((pack_packet p).drop 5).length) (hb : b < 256)
    (hne : b ≠ ((pack_packet p).drop 5)[i]) :
    unpack_packet p.headerOf (((pack_packet p).drop 5).set i b) = none ∧
      calculate_crc16 (packHeader p.headerOf ++
          ((((pack_packet p).drop 5).set i b).take
            ((((pack_packet p).drop 5).set i b).length - 2)) ++ [0, 0]) ≠
        rdU16pair ((((pack_packet p).drop 5).set i b).drop
          ((((pack_packet p).drop 5).set i b).length - 2)) := by
  have hdrop := pack_drop5 p h
  have hP : ∀ x ∈ p.dataOf, x < 256 := dataOf_bytes_lt p h
  have hH : ∀ x ∈ packHeader p.headerOf, x < 256 := packHeader_bytes_lt _
  have hClt : p.crcOf < 65536 := calculate_crc16_lt _
  have hulen : (u16le p.crcOf).length = 2 := by simp [u16le]
  simp only [hdrop] at hi hne ⊢
  by_cases hcase : i < p.dataOf.length
  · -- a byte of the data section changed: the recomputed CRC changes
    have hset : (p.dataOf ++ u16le p.crcOf).set i b = p.dataOf.set i b ++ u16le p.crcOf :=
      List.set_append_left i b hcase
    rw [hset]
    have hsetlen : (p.dataOf.set i b).length = p.dataOf.length := List.length_set _ _ _
    have htake : (p.dataOf.set i b ++ u16le p.crcOf).take
        ((p.dataOf.set i b ++ u16le p.crcOf).length - 2) = p.dataOf.set i b :=
      take_body _ _ hulen
    have hdropc : (p.dataOf.set i b ++ u16le p.crcOf).drop
        ((p.dataOf.set i b ++ u16le p.crcOf).length - 2) = u16le p.crcOf :=
      drop_tail _ _ hulen
    have hgot : (p.dataOf ++ u16le p.crcOf)[i] = p.dataOf[i] :=
      List.getElem_append_left hcase
    rw [hgot] at hne
    have hsetbytes : ∀ x ∈ packHeader p.headerOf ++ p.dataOf.set i b, x < 256 := by
      intro x hx
      rcases List.mem_append.1 hx with hx | hx
      · exact hH x hx
      · rcases List.mem_or_eq_of_mem_set hx with hx | hx
        · exact hP x hx
        · omega
    have hcne : calculate_crc16 (packHeader p.headerOf ++ p.dataOf.set i b ++ [0, 0]) ≠
        p.crcOf := by
      have e1 := calc_crc_body p.headerOf (p.dataOf.set i b) hsetbytes
      have e2 := calc_crc_body p.headerOf p.dataOf
        (by intro x hx
            rcases List.mem_append.1 hx with hx | hx
            · exact hH x hx
            · exact hP x hx)
      have hfold : (packHeader p.headerOf ++ p.dataOf.set i b).foldl crcByte 0xFFFF ≠
          (packHeader p.headerOf ++ p.dataOf).foldl crcByte 0xFFFF := by
        rw [set_eq_take_cons_drop hcase b]
        conv_rhs => rw [eq_take_cons_drop hcase]
        rw [← List.append_assoc, ← List.append_assoc]
        refine crc_fold_single_byte ?_ ?_ hb ?_ hne (by norm_num)
        · intro x hx
          rcases List.mem_append.1 hx with hx | hx
          · exact hH x hx
          · exact hP x (List.mem_of_mem_take hx)
        · intro x hx
          exact hP x (List.mem_of_mem_drop hx)
        · exact hP _ (List.getElem_mem _)
      rw [e1]
      intro hcontra
      apply hfold
      rw [hcontra]
      show p.crcOf = _
      unfold Packet.crcOf
      rw [e2]
    have hrecv : rdU16pair (u16le p.crcOf) = p.crcOf := rdU16pair_u16le _ hClt
    have hlen2 : ¬ (p.dataOf.set i b ++ u16le p.crcOf).length < 2 := by
      simp [hulen]
    refine ⟨?_, ?_⟩
    · apply unpack_of_crc_ne _ _ hlen2
      rw [htake, hdropc, hrecv]
      exact hcne
    · rw [htake, hdropc, hrecv]
      exact hcne
  · -- one of the two stored CRC bytes changed: the stored CRC changes
    push_neg at hcase
    have hilen : i < p.dataOf.length + 2 := by
      have h5 := hi
      simp only [List.length_append, hulen] at h5
      omega
    have hset : (p.dataOf ++ u16le p.crcOf).set i b =
        p.dataOf ++ (u16le p.crcOf).set (i - p.dataOf.length) b :=
      List.set_append_right i b hcase
    rw [List.getElem_append_right hcase] at hne
    have hcalc : calculate_crc16 (packHeader p.headerOf ++ p.dataOf ++ [0, 0]) = p.crcOf := rfl
    obtain hi0 | hi1 : i - p.dataOf.length = 0 ∨ i - p.dataOf.length = 1 := by omega
    · simp only [hi0] at hset hne
      simp only [u16le, List.set_cons_zero] at hset
      simp only [u16le, List.getElem_cons_zero] at hne
      simp only [u16le]
      rw [hset]
      have htake : (p.dataOf ++ [b, p.crcOf / 256 % 256]).take
          ((p.dataOf ++ [b, p.crcOf / 256 % 256]).length - 2) = p.dataOf :=
        take_body _ _ (by rfl)
      have hdropc : (p.dataOf ++ [b, p.crcOf / 256 % 256]).drop
          ((p.dataOf ++ [b, p.crcOf / 256 % 256]).length - 2) = [b, p.crcOf / 256 % 256] :=
        drop_tail _ _ (by rfl)
      have hrne : calculate_crc16 (packHeader p.headerOf ++ p.dataOf ++ [0, 0]) ≠
          rdU16pair [b, p.crcOf / 256 % 256] := by
        rw [hcalc]
        simp only [rdU16pair, rdU16]
        omega
      refine ⟨?_, ?_⟩
      · apply unpack_of_crc_ne _ _ (by simp)
        rw [htake, hdropc]
        exact hrne
      · rw [htake, hdropc]
        exact hrne
    · simp only [hi1] at hset hne
      simp only [u16le, List.set_cons_succ, List.set_cons_zero] at hset
      simp only [u16le, List.getElem_cons_succ, List.getElem_cons_zero] at hne
      simp only [u16le]
      rw [hset]
      have htake : (p.dataOf ++ [p.crcOf % 256, b]).take
          ((p.dataOf ++ [p.crcOf % 256, b]).length - 2) = p.dataOf :=
        take_body _ _ (by rfl)
      have hdropc : (p.dataOf ++ [p.crcOf % 256, b]).drop
          ((p.dataOf ++ [p.crcOf % 256, b]).length - 2) = [p.crcOf % 256, b] :=
        drop_tail _ _ (by rfl)
      have hrne : calculate_crc16 (packHeader p.headerOf ++ p.dataOf ++ [0, 0]) ≠
          rdU16pair [p.crcOf % 256, b] := by
        rw [hcalc]
        simp only [rdU16pair, rdU16]
        omega
      refine ⟨?_, ?_⟩
      · apply unpack_of_crc_ne _ _ (by simp)
        rw [htake, hdropc]
        exact hrne
      · rw [htake, hdropc]
        exact hrne

instance (p : Packet) : Decidable p.wf := by
  cases p
  all_goals
    simp only [Packet.wf, headerWf]
    exact inferInstance

-- a concrete well-formed ping packet whose crc field holds the CRC16 that
-- pack_packet stores
def pingExample : Packet :=
  .ping ⟨⟨43605, 6, 7, 0⟩, 123, Packet.crcOf (.ping ⟨⟨43605, 6, 7, 0⟩, 123, 0⟩)⟩

/-- C1: the round trip claim is falsified by the crc field: pack_packet
ignores the crc field of its argument and stores the freshly computed
CRC16, so a packet whose fields are all in range and whose header is
correct but whose crc field is 0 does not decode back to itself. -/
theorem roundtrip_crc_field_counterexample :
    unpack_packet ⟨43605, 6, 7, 0⟩
        ((pack_packet (.ping ⟨⟨43605, 6, 7, 0⟩, 0, 0⟩)).drop 5) ≠
      some (.typed (.ping ⟨⟨43605, 6, 7, 0⟩, 0, 0⟩)) := by
  decide

/-- C1 (amended): for every packet variant whose numeric fields are within
their declared wire ranges, whose header carries the correct preamble,
payload_size and packet_type, and whose crc field equals the CRC16 that
pack_packet computes and stores, decoding the encoding gives back the
packet, including the crc field. -/
theorem packet_roundtrip (p : Packet) (h : p.wf) :
    unpack_packet p.headerOf ((pack_packet p).drop 5) = some (.typed p) :=
  unpack_pack p h

theorem packet_roundtrip_witness :
    Packet.wf pingExample ∧
      unpack_packet pingExample.headerOf ((pack_packet pingExample).drop 5) =
        some (.typed pingExample) :=
  ⟨by decide, packet_roundtrip pingExample (by decide)⟩

/-- C2: for every well-formed packet and every change of exactly one byte
of the payload-and-CRC portion of its encoding (data bytes or either of
the two trailing CRC bytes) to a different byte value, unpack_packet
rejects the modified bytes with the rejection value none, and the
recomputed CRC16 does not match the stored CRC16. -/
theorem packet_corruption_rejection (p : Packet) (h : p.wf) (i b : Nat)
    (hi : i < ((pack_packet p).drop 5).length) (hb : b < 256)
    (hne : b ≠ ((pack_packet p).drop 5)[i]) :
    unpack_packet p.headerOf (((pack_packet p).drop 5).set i b) = none ∧
      calculate_crc16 (packHeader p.headerOf ++
          ((((pack_packet p).drop 5).set i b).take
            ((((pack_packet p).drop 5).set i b).length - 2)) ++ [0, 0]) ≠
        rdU16pair ((((pack_packet p).drop 5).set i b).drop
          ((((pack_packet p).drop 5).set i b).length - 2)) :=
  single_byte_corruption p h i b hi hb hne

theorem packet_corruption_rejection_witness :
    unpack_packet pingExample.headerOf (((pack_packet pingExample).drop 5).set 0 200) = none :=
  (packet_corruption_rejection pingExample (by decide) 0 200 (by decide) (by decide)
    (by decide)).1

/-- C3: the claim is falsified: unpack_packet returns the same value none
for a CRC mismatch, for an unknown packet_type and for a payload_size
mismatch, so the returned value cannot distinguish the three causes.
The three inputs below fail for the three different reasons yet produce
identical results. -/
theorem rejection_indistinguishable_counterexample :
    unpack_packet ⟨43605, 6, 7, 0⟩ [0, 0, 0, 0, 9, 9] = none ∧
      unpack_packet ⟨43605, 6, 99, 0⟩
        ([0, 0, 0, 0] ++ u16le (calculate_crc16
          (packHeader ⟨43605, 6, 99, 0⟩ ++ [0, 0, 0, 0] ++ [0, 0]))) = none ∧
      unpack_packet ⟨43605, 10, 1, 0⟩
        ([0, 0, 0, 0, 0, 0, 0, 0] ++ u16le (calculate_crc16
          (packHeader ⟨43605, 10, 1, 0⟩ ++ [0, 0, 0, 0, 0, 0, 0, 0] ++ [0, 0]))) = none := by
  refine ⟨by decide, by decide, by decide⟩

/-- C3 (amended): unpack_packet rejects with the single value none in all
three failure cases, so the rejection value itself does not distinguish a
CRC mismatch from an unknown packet_type from a payload_size mismatch:
a caller cannot count the three causes from the return value. -/
theorem rejection_uniformly_none (header : PacketHeader) (payload : List Nat)
    (hlen : ¬ payload.length < 2) :
    (calculate_crc16 (packHeader header ++ payload.take (payload.length - 2) ++ [0, 0]) ≠
        rdU16pair (payload.drop (payload.length - 2)) →
      unpack_packet header payload = none) ∧
    ((header.packet_type = PacketType.TELEMETRY ∧ header.payload_size ≠ TELEMETRY_SIZE) →
      unpack_packet header payload = none) ∧
    ((header.packet_type ≠ PacketType.TELEMETRY ∧ header.packet_type ≠ PacketType.COMMAND ∧
      header.packet_type ≠ PacketType.STATUS ∧ header.packet_type ≠ PacketType.SENSOR_DATA ∧
      header.packet_type ≠ PacketType.CONFIG ∧ header.packet_type ≠ PacketType.BULK_DATA ∧
      header.packet_type ≠ PacketType.PING ∧ header.packet_type ≠ PacketType.ACK ∧
      header.packet_type ≠ PacketType.CUSTOM_MESSAGE) →
      unpack_packet header payload = none) := by
  refine ⟨fun hcrc => unpack_of_crc_ne header payload hlen hcrc, fun hsz => ?_, fun hty => ?_⟩
  · obtain ⟨hty, hsz⟩ := hsz
    unfold unpack_packet
    rw [if_neg hlen]
    by_cases hcrc : calculate_crc16 (packHeader header ++
        payload.take (payload.length - 2) ++ [0, 0]) ≠
        rdU16pair (payload.drop (payload.length - 2))
    · simp only [if_pos hcrc]
    · simp only [if_neg hcrc, if_pos hty, if_pos hsz]
  · obtain ⟨h1, h2, h3, h4, h5, h6, h7, h8, h9⟩ := hty
    unfold unpack_packet
    rw [if_neg hlen]
    by_cases hcrc : calculate_crc16 (packHeader header ++
        payload.take (payload.length - 2) ++ [0, 0]) ≠
        rdU16pair (payload.drop (payload.length - 2))
    · simp only [if_pos hcrc]
    · simp only [if_neg hcrc, if_neg h1, if_neg h2, if_neg h3, if_neg h4, if_neg h5,
        if_neg h6, if_neg h7, if_neg h8, if_neg h9]

theorem rejection_uniformly_none_witness :
    unpack_packet ⟨43605, 6, 7, 0⟩ [0, 0, 0, 0, 9, 9] = none :=
  (rejection_uniformly_none ⟨43605, 6, 7, 0⟩ [0, 0, 0, 0, 9, 9] (by decide)).1 (by decide)

-- ## Link framer (link.py): preamble search, extraction, dispatch

-- bytes.find of the two byte preamble b"\x55\xAA": index of its first
-- occurrence
def findPreamble : List Nat → Option Nat
  | a :: b :: rest =>
      if a = 85 ∧ b = 170 then some 0 else (findPreamble (b :: rest)).map (fun n => n + 1)
  | _ => none

-- _extract_packet: search the preamble, discard leading garbage, check the
-- header, and slice one whole packet off the buffer; returns the packet
-- slice (when complete) and the remaining buffer
def extract_packet (buf : List Nat) : Option (List Nat) × List Nat :=
  if buf.length < HEADER_SIZE then (none, buf)
  else match findPreamble buf with
    | none => (none, if buf.length > 1 then buf.drop (buf.length - 1) else buf)
    | some pos =>
      let buf1 := buf.drop pos
      if buf1.length < HEADER_SIZE then (none, buf1)
      else
        let preamble := rdU16 (buf1.getD 0 0) (buf1.getD 1 0)
        let payload_size := buf1.getD 2 0
        if preamble ≠ PACKET_PREAMBLE then (none, buf1.drop 1)
        else if payload_size < 2 ∨ payload_size > MAX_PAYLOAD_SIZE then (none, buf1.drop 1)
        else if buf1.length < HEADER_SIZE + payload_size then (none, buf1)
        else (some (buf1.take (HEADER_SIZE + payload_size)),
          buf1.drop (HEADER_SIZE + payload_size))

-- the while-true loop of _process_received_data, with fuel: every
-- successful extraction removes at least seven bytes from the buffer, so
-- the initial buffer length bounds the number of loop iterations and the
-- fuel below never runs out
def processAllFuel : Nat → List Nat → List (List Nat)
  | 0, _ => []
  | fuel + 1, buf =>
      match extract_packet buf with
      | (none, _) => []
      | (some pkt, buf1) => pkt :: processAllFuel fuel buf1

-- _process_received_data on a single chunk of received bytes: the list of
-- whole packet slices extracted from it
def process_received_data (data : List Nat) : List (List Nat) :=
  processAllFuel data.length data

-- the header parse of _handle_packet (struct.unpack on the first five
-- bytes of a packet slice)
def parseHeader (s : List Nat) : PacketHeader :=
  ⟨rdU16 (s.getD 0 0) (s.getD 1 0), s.getD 2 0, s.getD 3 0, s.getD 4 0⟩

-- _handle_packet: parse the header and run the codec on the payload; some
-- is a delivered packet, none increments packets_corrupted
def handle_packet (s : List Nat) : Option UnpackedPacket :=
  unpack_packet (parseHeader s) (s.drop HEADER_SIZE)

-- ## Resynchronization lemmas

theorem headerWf_facts {h : PacketHeader} {sz ty : Nat} (hw : headerWf h sz ty)
    (hsz2 : 2 ≤ sz) (hsz128 : sz ≤ 128) (hty : ty < 256) :
    h.preamble = PACKET_PREAMBLE ∧ 2 ≤ h.payload_size ∧ h.payload_size ≤ 128 ∧
    h.payload_size < 256 ∧ h.packet_type < 256 ∧ h.network_id < 256 := by
  obtain ⟨h1, h2, h3, h4⟩ := hw
  refine ⟨h1, ?_, ?_, ?_, ?_, h4⟩ <;> omega

theorem wf_header (p : Packet) (h : p.wf) :
    p.headerOf.preamble = PACKET_PREAMBLE ∧ 2 ≤ p.headerOf.payload_size ∧
    p.headerOf.payload_size ≤ 128 ∧ p.headerOf.payload_size < 256 ∧
    p.headerOf.packet_type < 256 ∧ p.headerOf.network_id < 256 := by
  cases p with
  | telemetry t =>
    exact headerWf_facts h.1 (by norm_num [TELEMETRY_SIZE]) (by norm_num [TELEMETRY_SIZE])
      (by norm_num [PacketType.TELEMETRY])
  | command t =>
    exact headerWf_facts h.1 (by norm_num [COMMAND_SIZE]) (by norm_num [COMMAND_SIZE])
      (by norm_num [PacketType.COMMAND])
  | status t =>
    exact headerWf_facts h.1 (by norm_num [STATUS_SIZE]) (by norm_num [STATUS_SIZE])
      (by norm_num [PacketType.STATUS])
  | sensor t =>
    exact headerWf_facts h.1 (by norm_num [SENSOR_SIZE]) (by norm_num [SENSOR_SIZE])
      (by norm_num [PacketType.SENSOR_DATA])
  | config t =>
    exact headerWf_facts h.1 (by norm_num [CONFIG_SIZE]) (by norm_num [CONFIG_SIZE])
      (by norm_num [PacketType.CONFIG])
  | ping t =>
    exact headerWf_facts h.1 (by norm_num [PING_SIZE]) (by norm_num [PING_SIZE])
      (by norm_num [PacketType.PING])
  | ack t =>
    exact headerWf_facts h.1 (by norm_num [ACK_SIZE]) (by norm_num [ACK_SIZE])
      (by norm_num [PacketType.ACK])
  | custom t =>
    exact headerWf_facts h.1 (by norm_num [CUSTOM_MESSAGE_SIZE]) (by norm_num [CUSTOM_MESSAGE_SIZE])
      (by norm_num [PacketType.CUSTOM_MESSAGE])
  | bulk raw => exact absurd h (by simp [Packet.wf])

theorem pack_length (p : Packet) (h : p.wf) :
    (pack_packet p).length = HEADER_SIZE + p.headerOf.payload_size := by
  cases p with
  | telemetry t =>
    have hps : t.header.payload_size = TELEMETRY_SIZE := h.1.2.1
    simp [pack_packet, packHeader, u16le, u8le, u32le, Packet.dataOf, Packet.headerOf,
      hps, TELEMETRY_SIZE, HEADER_SIZE]
  | command t =>
    have hps : t.header.payload_size = COMMAND_SIZE := h.1.2.1
    simp [pack_packet, packHeader, u16le, u8le, Packet.dataOf, Packet.headerOf,
      hps, COMMAND_SIZE, HEADER_SIZE]
  | status t =>
    have hps : t.header.payload_size = STATUS_SIZE := h.1.2.1
    simp [pack_packet, packHeader, u16le, u8le, Packet.dataOf, Packet.headerOf,
      hps, STATUS_SIZE, HEADER_SIZE]
  | sensor t =>
    have hps : t.header.payload_size = SENSOR_SIZE := h.1.2.1
    simp [pack_packet, packHeader, u16le, u8le, u32le, Packet.dataOf, Packet.headerOf,
      hps, SENSOR_SIZE, HEADER_SIZE]
  | config t =>
    have hps : t.header.payload_size = CONFIG_SIZE := h.1.2.1
    simp [pack_packet, packHeader, u16le, u8le, Packet.dataOf, Packet.headerOf,
      hps, CONFIG_SIZE, HEADER_SIZE]
  | ping t =>
    have hps : t.header.payload_size = PING_SIZE := h.1.2.1
    simp [pack_packet, packHeader, u16le, u8le, u32le, Packet.dataOf, Packet.headerOf,
      hps, PING_SIZE, HEADER_SIZE]
  | ack t =>
    have hps : t.header.payload_size = ACK_SIZE := h.1.2.1
    simp [pack_packet, packHeader, u16le, u8le, Packet.dataOf, Packet.headerOf,
      hps, ACK_SIZE, HEADER_SIZE]
  | custom t =>
    have hps : t.header.payload_size = CUSTOM_MESSAGE_SIZE := h.1.2.1
    have hlen : t.custom_data.length = 126 := h.2.1
    simp [pack_packet, packHeader, u16le, u8le, Packet.dataOf, Packet.headerOf,
      hps, hlen, CUSTOM_MESSAGE_SIZE, HEADER_SIZE]
  | bulk raw => exact absurd h (by simp [Packet.wf])

theorem packHeader_bytes (h : PacketHeader) (hpre : h.preamble = PACKET_PREAMBLE)
    (hps : h.payload_size < 256) (hty : h.packet_type < 256) (hnet : h.network_id < 256) :
    packHeader h = [85, 170, h.payload_size, h.packet_type, h.network_id] := by
  unfold packHeader u16le u8le
  rw [hpre]
  norm_num [PACKET_PREAMBLE, Nat.mod_eq_of_lt hps, Nat.mod_eq_of_lt hty,
    Nat.mod_eq_of_lt hnet]

-- pack_packet of a well-formed packet starts with the preamble bytes and
-- carries the declared sizes in its header bytes
theorem pack_cons (p : Packet) (h : p.wf) :
    pack_packet p = 85 :: 170 :: p.headerOf.payload_size :: p.headerOf.packet_type ::
      p.headerOf.network_id :: (p.dataOf ++ u16le p.crcOf) := by
  obtain ⟨hpre, _, _, hps, hty, hnet⟩ := wf_header p h
  have hdr := packHeader_bytes p.headerOf hpre hps hty hnet
  have hsplit : pack_packet p = packHeader p.headerOf ++ (p.dataOf ++ u16le p.crcOf) := by
    cases p with
    | bulk raw => exact absurd h (by simp [Packet.wf])
    | telemetry t =>
      show packHeader _ ++ _ ++ _ = _
      rw [List.append_assoc]
      rfl
    | command t =>
      show packHeader _ ++ _ ++ _ = _
      rw [List.append_assoc]
      rfl
    | status t =>
      show packHeader _ ++ _ ++ _ = _
      rw [List.append_assoc]
      rfl
    | sensor t =>
      show packHeader _ ++ _ ++ _ = _
      rw [List.append_assoc]
      rfl
    | config t =>
      show packHeader _ ++ _ ++ _ = _
      rw [List.append_assoc]
      rfl
    | ping t =>
      show packHeader _ ++ _ ++ _ = _
      rw [List.append_assoc]
      rfl
    | ack t =>
      show packHeader _ ++ _ ++ _ = _
      rw [List.append_assoc]
      rfl
    | custom t =>
      show packHeader _ ++ _ ++ _ = _
      rw [List.append_assoc]
      rfl
  rw [hsplit, hdr]
  rfl

theorem findPreamble_append :
    ∀ (G : List Nat), findPreamble G = none →
      ∀ t : List Nat, findPreamble (G ++ 85 :: 170 :: t) = some G.length
  | [], _, t => by simp [findPreamble]
  | [a], _, t => by
    show findPreamble (a :: 85 :: 170 :: t) = some 1
    unfold findPreamble
    rw [if_neg (by simp)]
    simp [findPreamble]
  | a :: b :: g2, hg, t => by
    unfold findPreamble at hg
    by_cases hab : a = 85 ∧ b = 170
    · rw [if_pos hab] at hg
      exact absurd hg (by simp)
    · rw [if_neg hab] at hg
      have hg2 : findPreamble (b :: g2) = none := by
        rcases hfb : findPreamble (b :: g2) with _ | n
        · rfl
        · rw [hfb] at hg
          simp at hg
      have ih := findPreamble_append (b :: g2) hg2 t
      show (if a = 85 ∧ b = 170 then some 0
          else (findPreamble (b :: (g2 ++ 85 :: 170 :: t))).map (fun n => n + 1)) =
        some (a :: b :: g2).length
      rw [if_neg hab,
        show b :: (g2 ++ 85 :: 170 :: t) = (b :: g2) ++ 85 :: 170 :: t from rfl, ih]
      simp

-- extract_packet on garbage (free of the preamble pair) followed by a
-- well-formed encoded packet: the garbage is discarded and exactly the
-- packet is sliced off
theorem extract_at_packet (p : Packet) (hp : p.wf) (G rest : List Nat)
    (hg : findPreamble G = none) :
    extract_packet (G ++ pack_packet p ++ rest) = (some (pack_packet p), rest) := by
  obtain ⟨hpre, h2, h128, h256, hty, hnet⟩ := wf_header p hp
  have hlen := pack_length p hp
  have hcons := pack_cons p hp
  have hH : HEADER_SIZE = 5 := rfl
  have hM : MAX_PAYLOAD_SIZE = 128 := rfl
  have hbuflen : (G ++ pack_packet p ++ rest).length =
      G.length + (5 + p.headerOf.payload_size) + rest.length := by
    simp [hlen, hH]
    omega
  have hfind : findPreamble (G ++ pack_packet p ++ rest) = some G.length := by
    rw [List.append_assoc, hcons]
    rw [show (85 :: 170 :: p.headerOf.payload_size :: p.headerOf.packet_type ::
        p.headerOf.network_id :: (p.dataOf ++ u16le p.crcOf)) ++ rest =
        85 :: 170 :: (p.headerOf.payload_size :: p.headerOf.packet_type ::
        p.headerOf.network_id :: (p.dataOf ++ u16le p.crcOf) ++ rest) from rfl]
    exact findPreamble_append G hg _
  have hdrop : (G ++ pack_packet p ++ rest).drop G.length = pack_packet p ++ rest := by
    rw [List.append_assoc]
    exact List.drop_left _ _
  have hplen : (pack_packet p ++ rest).length =
      5 + p.headerOf.payload_size + rest.length := by
    simp [hlen, hH]
  unfold extract_packet
  rw [if_neg (by rw [hbuflen]; rw [hH]; omega), hfind]
  simp only [hdrop]
  rw [if_neg (by rw [hplen, hH]; omega)]
  have hgetD0 : (pack_packet p ++ rest).getD 0 0 = 85 := by
    rw [hcons]
    rfl
  have hgetD1 : (pack_packet p ++ rest).getD 1 0 = 170 := by
    rw [hcons]
    rfl
  have hgetD2 : (pack_packet p ++ rest).getD 2 0 = p.headerOf.payload_size := by
    rw [hcons]
    rfl
  rw [hgetD0, hgetD1, hgetD2]
  rw [if_neg (by rw [rdU16]; norm_num [PACKET_PREAMBLE])]
  rw [if_neg (by rw [hM]; omega)]
  rw [if_neg (by rw [hplen, hH]; omega)]
  have htake : (pack_packet p ++ rest).take (HEADER_SIZE + p.headerOf.payload_size) =
      pack_packet p := by
    apply List.take_left'
    rw [hlen]
  have hdrop2 : (pack_packet p ++ rest).drop (HEADER_SIZE + p.headerOf.payload_size) =
      rest := by
    apply List.drop_left'
    rw [hlen]
  rw [htake, hdrop2]

-- _handle_packet on a well-formed encoded packet delivers the packet
theorem handle_pack (p : Packet) (hp : p.wf) :
    handle_packet (pack_packet p) = some (.typed p) := by
  obtain ⟨hpre, h2, h128, h256, hty, hnet⟩ := wf_header p hp
  have hcons := pack_cons p hp
  have hparse : parseHeader (pack_packet p) = p.headerOf := by
    rw [hcons]
    show PacketHeader.mk (rdU16 85 170) p.headerOf.payload_size p.headerOf.packet_type
      p.headerOf.network_id = p.headerOf
    rw [show rdU16 85 170 = PACKET_PREAMBLE from by rw [rdU16]; norm_num [PACKET_PREAMBLE],
      ← hpre]
  unfold handle_packet
  rw [hparse]
  have hdrop5 : (pack_packet p).drop HEADER_SIZE = (pack_packet p).drop 5 := rfl
  rw [hdrop5]
  exact unpack_pack p hp

theorem processAllFuel_succ (fuel : Nat) (buf : List Nat) :
    processAllFuel (fuel + 1) buf =
      match extract_packet buf with
      | (none, _) => []
      | (some pkt, buf1) => pkt :: processAllFuel fuel buf1 := rfl

/-- C4: the resynchronization claim fails for arbitrary garbage: garbage
that itself contains the preamble pair can mis-frame the stream and
swallow packet A. With G1 = [85, 170, 10, 1, 0] (a spurious preamble and
header claiming a 10 byte payload), G2 empty, and A = B a valid ping
packet, the extraction loop slices a bogus 15 byte frame that consumes
most of A, so the output is not [A, B]. -/
theorem resync_counterexample :
    process_received_data ([85, 170, 10, 1, 0] ++ pack_packet pingExample ++ [] ++
        pack_packet pingExample) ≠
      [pack_packet pingExample, pack_packet pingExample] := by
  decide

/-- C4 (amended): for garbage sequences G1 and G2 that never contain the
two byte preamble pair, feeding G1 followed by a valid packet A, G2 and a
valid packet B into the extraction loop yields exactly the slices A and B
in order, the codec decodes them back to the two packets, and the
corrupted counter is not incremented (no extracted slice is rejected). -/
theorem resync (pA pB : Packet) (hA : pA.wf) (hB : pB.wf) (G1 G2 : List Nat)
    (h1 : findPreamble G1 = none) (h2 : findPreamble G2 = none) :
    process_received_data (G1 ++ pack_packet pA ++ G2 ++ pack_packet pB) =
      [pack_packet pA, pack_packet pB] ∧
    (process_received_data (G1 ++ pack_packet pA ++ G2 ++ pack_packet pB)).map
        handle_packet = [some (.typed pA), some (.typed pB)] ∧
    ((process_received_data (G1 ++ pack_packet pA ++ G2 ++ pack_packet pB)).filter
        (fun s => (handle_packet s).isNone)).length = 0 := by
  have e1 : extract_packet ((G1 ++ pack_packet pA) ++ (G2 ++ pack_packet pB)) =
      (some (pack_packet pA), G2 ++ pack_packet pB) :=
    extract_at_packet pA hA G1 (G2 ++ pack_packet pB) h1
  have e2 : extract_packet (G2 ++ pack_packet pB) = (some (pack_packet pB), []) := by
    have h := extract_at_packet pB hB G2 [] h2
    rw [List.append_nil] at h
    exact h
  have e3 : extract_packet [] = (none, []) := rfl
  have hrun : ∀ fuel : Nat,
      processAllFuel (fuel + 3) ((G1 ++ pack_packet pA) ++ (G2 ++ pack_packet pB)) =
        [pack_packet pA, pack_packet pB] := by
    intro fuel
    have s1 : processAllFuel (fuel + 3) ((G1 ++ pack_packet pA) ++ (G2 ++ pack_packet pB)) =
        pack_packet pA :: processAllFuel (fuel + 2) (G2 ++ pack_packet pB) := by
      rw [show fuel + 3 = (fuel + 2) + 1 from rfl, processAllFuel_succ, e1]
    have s2 : processAllFuel (fuel + 2) (G2 ++ pack_packet pB) =
        pack_packet pB :: processAllFuel (fuel + 1) [] := by
      rw [show fuel + 2 = (fuel + 1) + 1 from rfl, processAllFuel_succ, e2]
    have s3 : processAllFuel (fuel + 1) [] = [] := by
      rw [processAllFuel_succ, e3]
    rw [s1, s2, s3]
  have hassoc : G1 ++ pack_packet pA ++ G2 ++ pack_packet pB =
      (G1 ++ pack_packet pA) ++ (G2 ++ pack_packet pB) :=
    List.append_assoc _ _ _
  have hlenA := pack_length pA hA
  have hlenB := pack_length pB hB
  have hA2 := (wf_header pA hA).2.1
  obtain ⟨k, hk⟩ : ∃ k,
      ((G1 ++ pack_packet pA) ++ (G2 ++ pack_packet pB)).length = k + 3 := by
    refine ⟨((G1 ++ pack_packet pA) ++ (G2 ++ pack_packet pB)).length - 3, ?_⟩
    have : 5 ≤ (pack_packet pA).length := by
      rw [hlenA]
      show 5 ≤ HEADER_SIZE + _
      have : HEADER_SIZE = 5 := rfl
      omega
    simp only [List.length_append]
    omega
  have hmain : process_received_data (G1 ++ pack_packet pA ++ G2 ++ pack_packet pB) =
      [pack_packet pA, pack_packet pB] := by
    unfold process_received_data
    rw [hassoc, hk, hrun k]
  refine ⟨hmain, ?_, ?_⟩
  · rw [hmain]
    simp [handle_pack pA hA, handle_pack pB hB]
  · rw [hmain]
    simp [handle_pack pA hA, handle_pack pB hB]

theorem resync_witness :
    process_received_data ([1, 2, 3] ++ pack_packet pingExample ++ [] ++
        pack_packet pingExample) =
      [pack_packet pingExample, pack_packet pingExample] :=
  (resync pingExample pingExample (by decide) (by decide) [1, 2, 3] []
    (by decide) (by decide)).1

-- ## Presence and discovery model (drone.py)

namespace Drone

-- DronePosition from drone_data.py: position and velocity; the decoded
-- float values are modelled as rational numbers
structure DronePosition where
  x : ℚ
  y : ℚ
  z : ℚ
  vx : ℚ
  vy : ℚ
  vz : ℚ
deriving DecidableEq

inductive DroneDiscoveryMethod where
  | telemetry
  | status
deriving DecidableEq

structure DroneInfo where
  drone_id : Nat
  position : DronePosition
  last_seen : ℚ
  discovered_via : DroneDiscoveryMethod
deriving DecidableEq

-- the decoded fields of a TelemetryPacket used by the telemetry handler,
-- float fields as rational values
structure TelemetryMsg where
  drone_id : Nat
  x : ℚ
  y : ℚ
  z : ℚ
  vx : ℚ
  vy : ℚ
  vz : ℚ
deriving DecidableEq

-- the fields of a StatusPacket used by the status handler
structure StatusMsg where
  drone_id : Nat
  status_code : Nat
  battery_mv : Nat
  error_flags : Nat
deriving DecidableEq

-- the _other_drones dictionary, exclusively owned by the Drone facade
def DroneTable := Nat → Option DroneInfo

-- _handle_telemetry_packet: unless the sender is ourselves, always create
-- or overwrite the entry for the sender with fresh position and timestamp
def handle_telemetry_packet (self_id : Nat) (now : ℚ) (pkt : TelemetryMsg)
    (table : DroneTable) : DroneTable :=
  if pkt.drone_id ≠ self_id then
    fun i => if i = pkt.drone_id then
        some ⟨pkt.drone_id, ⟨pkt.x, pkt.y, pkt.z, pkt.vx, pkt.vy, pkt.vz⟩, now,
          .telemetry⟩
      else table i
  else table

-- _handle_status_packet (table part): only refresh last_seen, and only
-- when the sender is not ourselves and an entry already exists
def handle_status_packet (self_id : Nat) (now : ℚ) (pkt : StatusMsg)
    (table : DroneTable) : DroneTable :=
  if pkt.drone_id ≠ self_id then
    match table pkt.drone_id with
    | some info =>
        fun i => if i = pkt.drone_id then some { info with last_seen := now } else table i
    | none => table
  else table

-- _cleanup_expired_drones: delete entries older than the expiry timeout
def cleanup_expired_drones (now timeout : ℚ) (table : DroneTable) : DroneTable :=
  fun i =>
    match table i with
    | some info => if now - info.last_seen > timeout then none else some info
    | none => none

-- set_drone_expiry_timeout: clamp the timeout to a minimum of one second
def set_drone_expiry_timeout (timeout : ℚ) : ℚ := max 1 timeout

end Drone

/-- C5: a Telemetry packet from an id X distinct from our own creates the
presence entry for X if absent or overwrites it (position and last_seen
refreshed, discovered_via Telemetry), leaving every other entry unchanged;
a Status packet from an id with no entry leaves the table unchanged; a
Status packet from a foreign id with an existing entry updates only that
entry's last_seen, leaving position, discovered_via and other entries
unchanged. -/
theorem discovery_semantics (self_id : Nat) (now : ℚ) (table : Drone.DroneTable) :
    (∀ pkt : Drone.TelemetryMsg, pkt.drone_id ≠ self_id →
      Drone.handle_telemetry_packet self_id now pkt table pkt.drone_id =
        some ⟨pkt.drone_id, ⟨pkt.x, pkt.y, pkt.z, pkt.vx, pkt.vy, pkt.vz⟩, now,
          .telemetry⟩ ∧
      ∀ j, j ≠ pkt.drone_id →
        Drone.handle_telemetry_packet self_id now pkt table j = table j) ∧
    (∀ pkt : Drone.StatusMsg, table pkt.drone_id = none →
      Drone.handle_status_packet self_id now pkt table = table) ∧
    (∀ pkt : Drone.StatusMsg, ∀ info, pkt.drone_id ≠ self_id →
      table pkt.drone_id = some info →
      Drone.handle_status_packet self_id now pkt table pkt.drone_id =
        some ⟨info.drone_id, info.position, now, info.discovered_via⟩ ∧
      ∀ j, j ≠ pkt.drone_id →
        Drone.handle_status_packet self_id now pkt table j = table j) := by
  refine ⟨fun pkt hne => ⟨?_, fun j hj => ?_⟩, fun pkt hnone => ?_,
    fun pkt info hne hsome => ⟨?_, fun j hj => ?_⟩⟩
  · simp [Drone.handle_telemetry_packet, hne]
  · simp [Drone.handle_telemetry_packet, hne, hj]
  · unfold Drone.handle_status_packet
    split
    · rw [hnone]
    · rfl
  · unfold Drone.handle_status_packet
    rw [if_pos hne, hsome]
    simp
  · unfold Drone.handle_status_packet
    rw [if_pos hne, hsome]
    simp [hj]

theorem discovery_semantics_witness :
    Drone.handle_telemetry_packet 1 5 ⟨7, 1, 2, 0, 0, 0, 0⟩ (fun _ => none) 7 =
      some ⟨7, ⟨1, 2, 0, 0, 0, 0⟩, 5, .telemetry⟩ :=
  ((discovery_semantics 1 5 (fun _ => none)).1 ⟨7, 1, 2, 0, 0, 0, 0⟩ (by decide)).1

/-- C6: one run of the expiry sweep at time now removes exactly the entries
with now - last_seen strictly greater than the expiry timeout and returns
every other entry unmodified; with the expiry timeout set to 3.0 through
set_drone_expiry_timeout, an entry last seen at time 0 survives a sweep at
time 2.9 and is removed by a sweep at time 3.1. -/
theorem expiry_sweep (now timeout : ℚ) (table : Drone.DroneTable) :
    (∀ i info, table i = some info →
      Drone.cleanup_expired_drones now timeout table i =
        if now - info.last_seen > timeout then none else some info) ∧
    (∀ i, table i = none → Drone.cleanup_expired_drones now timeout table i = none) ∧
    (∀ i info, table i = some info → info.last_seen = 0 →
      Drone.cleanup_expired_drones 2.9 (Drone.set_drone_expiry_timeout 3) table i =
        some info ∧
      Drone.cleanup_expired_drones 3.1 (Drone.set_drone_expiry_timeout 3) table i = none) := by
  refine ⟨fun i info hsome => ?_, fun i hnone => ?_, fun i info hsome hseen => ⟨?_, ?_⟩⟩
  · unfold Drone.cleanup_expired_drones
    rw [hsome]
  · unfold Drone.cleanup_expired_drones
    rw [hnone]
  · unfold Drone.cleanup_expired_drones
    rw [hsome]
    show (if (2.9 : Rat) - info.last_seen > Drone.set_drone_expiry_timeout 3 then none
      else some info) = some info
    rw [hseen, if_neg]
    unfold Drone.set_drone_expiry_timeout
    norm_num
  · unfold Drone.cleanup_expired_drones
    rw [hsome]
    show (if (3.1 : Rat) - info.last_seen > Drone.set_drone_expiry_timeout 3 then none
      else some info) = none
    rw [hseen, if_pos]
    unfold Drone.set_drone_expiry_timeout
    norm_num

theorem expiry_sweep_witness :
    Drone.cleanup_expired_drones 2.9 (Drone.set_drone_expiry_timeout 3)
        (fun i => if i = 7 then some ⟨7, ⟨0, 0, 0, 0, 0, 0⟩, 0, .telemetry⟩ else none) 7 =
      some ⟨7, ⟨0, 0, 0, 0, 0, 0⟩, 0, .telemetry⟩ ∧
    Drone.cleanup_expired_drones 3.1 (Drone.set_drone_expiry_timeout 3)
        (fun i => if i = 7 then some ⟨7, ⟨0, 0, 0, 0, 0, 0⟩, 0, .telemetry⟩ else none) 7 =
      none :=
  (expiry_sweep 0 0
      (fun i => if i = 7 then some ⟨7, ⟨0, 0, 0, 0, 0, 0⟩, 0, .telemetry⟩ else none)).2.2
    7 ⟨7, ⟨0, 0, 0, 0, 0, 0⟩, 0, .telemetry⟩ (by decide) rfl

-- ## Collision avoidance control law (collision_avoidance/force_avoidance.py)

namespace Avoid

-- ForceCollisionAvoidance class constants
noncomputable def COLLISION_RADIUS : ℝ := 0.15

noncomputable def FORCE_EXPONENT : ℝ := 1.45

noncomputable def MAX_SPEED : ℝ := 1.5

noncomputable def MAX_ACCELERATION : ℝ := 3.0

noncomputable def REPULSION_STRENGTH : ℝ := 5000.0

noncomputable def ATTRACTION_STRENGTH : ℝ := 50.0

noncomputable def ARRIVAL_RADIUS : ℝ := 0.75

noncomputable def TARGET_THRESHOLD : ℝ := 0.2

noncomputable def TARGET_SPEED_THRESHOLD : ℝ := 0.1

noncomputable def BASE_DAMPING : ℝ := 0.1

noncomputable def FORCE_DAMPING_FACTOR : ℝ := 0.05

noncomputable def MAX_DAMPING : ℝ := 0.25

-- positions and velocities are real valued in this model
structure DronePosition where
  x : ℝ
  y : ℝ
  z : ℝ
  vx : ℝ
  vy : ℝ
  vz : ℝ

structure DroneInfo where
  drone_id : Nat
  position : DronePosition

-- calculate_repulsion_force: zero at and beyond ten collision radii, zero
-- strictly inside one collision radius, exponential falloff in between
noncomputable def calculate_repulsion_force (distance : ℝ) : ℝ :=
  if distance ≥ COLLISION_RADIUS * 10 then 0
  else if distance < COLLISION_RADIUS then 0
  else REPULSION_STRENGTH * Real.exp (-((distance / COLLISION_RADIUS - 1) ^ FORCE_EXPONENT))

-- the attraction part of get_avoidance_vector: clamped vector to the
-- target with a power law taper inside the approach radius; returns the
-- attraction force components and the distance to the target
noncomputable def attractionStage (my_pos target_pos : DronePosition) : ℝ × ℝ × ℝ :=
  let dx0 := target_pos.x - my_pos.x
  let dy0 := target_pos.y - my_pos.y
  let dist_to_target := Real.sqrt (dx0 ^ 2 + dy0 ^ 2)
  let dx_target := if dist_to_target > ARRIVAL_RADIUS then
      dx0 / dist_to_target * ARRIVAL_RADIUS else dx0
  let dy_target := if dist_to_target > ARRIVAL_RADIUS then
      dy0 / dist_to_target * ARRIVAL_RADIUS else dy0
  let approach_radius := ARRIVAL_RADIUS * 1.5
  let attraction_mult := if dist_to_target < approach_radius then
      ATTRACTION_STRENGTH * max 0.1 ((dist_to_target / approach_radius) ^ (1.0 : ℝ))
    else ATTRACTION_STRENGTH
  (dx_target * attraction_mult, dy_target * attraction_mult, dist_to_target)

-- the body of the loop over other drones in get_avoidance_vector
noncomputable def peerForce (my_pos : DronePosition) (dt : ℝ) (acc : ℝ × ℝ)
    (info : DroneInfo) : ℝ × ℝ :=
  let other_pos := info.position
  let dx := my_pos.x - other_pos.x
  let dy := my_pos.y - other_pos.y
  let distance := Real.sqrt (dx ^ 2 + dy ^ 2)
  let future_dx := (my_pos.x + my_pos.vx * dt) - (other_pos.x + other_pos.vx * dt)
  let future_dy := (my_pos.y + my_pos.vy * dt) - (other_pos.y + other_pos.vy * dt)
  let future_distance := Real.sqrt (future_dx ^ 2 + future_dy ^ 2)
  let distance_factor := if future_distance < distance then
      distance / max future_distance (COLLISION_RADIUS * 0.1)
    else 1
  let force := calculate_repulsion_force distance * distance_factor
  if force = 0 then acc
  else
    let ndx := if distance > 0 then dx / distance else dx
    let ndy := if distance > 0 then dy / distance else dy
    let fx := acc.1 + ndx * force
    let fy := acc.2 + ndy * force
    if future_distance < distance then
      (fx - (my_pos.vx - other_pos.vx) * force * 0.1,
       fy - (my_pos.vy - other_pos.vy) * force * 0.1)
    else (fx, fy)

-- the summed repulsion force over the peer snapshot
noncomputable def repulsionStage (my_pos : DronePosition)
    (other_drones : List (Nat × DroneInfo)) (dt : ℝ) : ℝ × ℝ :=
  other_drones.foldl (fun acc p => peerForce my_pos dt acc p.2) (0, 0)

-- the clamp pattern of get_avoidance_vector: scale both components by
-- limit / magnitude when the magnitude exceeds the limit, used once for
-- the acceleration and once for the velocity
noncomputable def clampPair (m x y : ℝ) : ℝ × ℝ :=
  (if Real.sqrt (x ^ 2 + y ^ 2) > m then x * (m / Real.sqrt (x ^ 2 + y ^ 2)) else x,
   if Real.sqrt (x ^ 2 + y ^ 2) > m then y * (m / Real.sqrt (x ^ 2 + y ^ 2)) else y)

-- the velocity update of get_avoidance_vector: adaptive damping, blend
-- with the previous velocity, acceleration clamp, integration, speed
-- clamp and the arrival snap to zero
noncomputable def velocityStage (previous_velocity : ℝ × ℝ × ℝ)
    (fx fy dist_to_target dt : ℝ) : ℝ × ℝ × ℝ :=
  let total_force := Real.sqrt (fx ^ 2 + fy ^ 2)
  let damping := min (BASE_DAMPING + total_force * FORCE_DAMPING_FACTOR) MAX_DAMPING
  let prev_vx := previous_velocity.1
  let prev_vy := previous_velocity.2.1
  let desired_vx := prev_vx * damping + fx * (1 - damping)
  let desired_vy := prev_vy * damping + fy * (1 - damping)
  let a := clampPair MAX_ACCELERATION ((desired_vx - prev_vx) / dt) ((desired_vy - prev_vy) / dt)
  let vx0 := prev_vx + a.1 * dt
  let vy0 := prev_vy + a.2 * dt
  let velocity := Real.sqrt (vx0 ^ 2 + vy0 ^ 2)
  let v := clampPair MAX_SPEED vx0 vy0
  if velocity < TARGET_SPEED_THRESHOLD ∧ dist_to_target < TARGET_THRESHOLD then (0, 0, 0)
  else (v.1, v.2, 0)

-- get_avoidance_vector: attraction plus summed repulsion fed into the
-- velocity update; the returned triple is also stored back into
-- previous_velocity by the source, so the previous velocity seen by the
-- next tick is exactly the value returned here
noncomputable def get_avoidance_vector (previous_velocity : ℝ × ℝ × ℝ)
    (my_pos target_pos : DronePosition) (other_drones : List (Nat × DroneInfo))
    (dt : ℝ) : ℝ × ℝ × ℝ :=
  let a := attractionStage my_pos target_pos
  let r := repulsionStage my_pos other_drones dt
  velocityStage previous_velocity (r.1 + a.1) (r.2 + a.2.1) a.2.2 dt

-- ### A guarded copy of the control law. Every operation that raises in
-- Python on a bad operand (division by zero, square root of a negative
-- number, fractional power of a negative base) is replaced by a partial
-- operation returning none on the bad operand, to express that the
-- original code never evaluates such an operand.

noncomputable def cdiv (a b : ℝ) : Option ℝ := if b = 0 then none else some (a / b)

noncomputable def csqrt (a : ℝ) : Option ℝ := if a < 0 then none else some (Real.sqrt a)

noncomputable def cpow (a b : ℝ) : Option ℝ := if a < 0 then none else some (a ^ b)

noncomputable def checked_repulsion_force (distance : ℝ) : Option ℝ :=
  if distance ≥ COLLISION_RADIUS * 10 then some 0
  else if distance < COLLISION_RADIUS then some 0
  else do
    let base ← cdiv distance COLLISION_RADIUS
    let p ← cpow (base - 1) FORCE_EXPONENT
    some (REPULSION_STRENGTH * Real.exp (-p))

noncomputable def checkedAttraction (my_pos target_pos : DronePosition) :
    Option (ℝ × ℝ × ℝ) := do
  let dx0 := target_pos.x - my_pos.x
  let dy0 := target_pos.y - my_pos.y
  let dist ← csqrt (dx0 ^ 2 + dy0 ^ 2)
  let dxt ← if dist > ARRIVAL_RADIUS then do
      let q ← cdiv dx0 dist
      some (q * ARRIVAL_RADIUS)
    else some dx0
  let dyt ← if dist > ARRIVAL_RADIUS then do
      let q ← cdiv dy0 dist
      some (q * ARRIVAL_RADIUS)
    else some dy0
  let am ← if dist < ARRIVAL_RADIUS * 1.5 then do
      let q ← cdiv dist (ARRIVAL_RADIUS * 1.5)
      let t ← cpow q (1.0 : ℝ)
      some (ATTRACTION_STRENGTH * max 0.1 t)
    else some ATTRACTION_STRENGTH
  some (dxt * am, dyt * am, dist)

noncomputable def checkedPeerForce (my_pos : DronePosition) (dt : ℝ) (acc : ℝ × ℝ)
    (info : DroneInfo) : Option (ℝ × ℝ) := do
  let other_pos := info.position
  let dx := my_pos.x - other_pos.x
  let dy := my_pos.y - other_pos.y
  let distance ← csqrt (dx ^ 2 + dy ^ 2)
  let future_dx := (my_pos.x + my_pos.vx * dt) - (other_pos.x + other_pos.vx * dt)
  let future_dy := (my_pos.y + my_pos.vy * dt) - (other_pos.y + other_pos.vy * dt)
  let future_distance ← csqrt (future_dx ^ 2 + future_dy ^ 2)
  let distance_factor ← if future_distance < distance then
      cdiv distance (max future_distance (COLLISION_RADIUS * 0.1))
    else some 1
  let rf ← checked_repulsion_force distance
  let force := rf * distance_factor
  if force = 0 then some acc
  else do
    let ndx ← if distance > 0 then cdiv dx distance else some dx
    let ndy ← if distance > 0 then cdiv dy distance else some dy
    let fx := acc.1 + ndx * force
    let fy := acc.2 + ndy * force
    if future_distance < distance then
      some (fx - (my_pos.vx - other_pos.vx) * force * 0.1,
            fy - (my_pos.vy - other_pos.vy) * force * 0.1)
    else some (fx, fy)

noncomputable def checkedRepulsion (my_pos : DronePosition)
    (other_drones : List (Nat × DroneInfo)) (dt : ℝ) : Option (ℝ × ℝ) :=
  other_drones.foldlM (fun acc p => checkedPeerForce my_pos dt acc p.2) (0, 0)

noncomputable def checkedClampPair (m x y : ℝ) : Option (ℝ × ℝ) := do
  let mag ← csqrt (x ^ 2 + y ^ 2)
  if mag > m then do
    let r ← cdiv m mag
    some (x * r, y * r)
  else some (x, y)

noncomputable def checkedVelocity (previous_velocity : ℝ × ℝ × ℝ)
    (fx fy dist_to_target dt : ℝ) : Option (ℝ × ℝ × ℝ) := do
  let tf ← csqrt (fx ^ 2 + fy ^ 2)
  let damping := min (BASE_DAMPING + tf * FORCE_DAMPING_FACTOR) MAX_DAMPING
  let prev_vx := previous_velocity.1
  let prev_vy := previous_velocity.2.1
  let desired_vx := prev_vx * damping + fx * (1 - damping)
  let desired_vy := prev_vy * damping + fy * (1 - damping)
  let ax0 ← cdiv (desired_vx - prev_vx) dt
  let ay0 ← cdiv (desired_vy - prev_vy) dt
  let a ← checkedClampPair MAX_ACCELERATION ax0 ay0
  let vx0 := prev_vx + a.1 * dt
  let vy0 := prev_vy + a.2 * dt
  let velocity ← csqrt (vx0 ^ 2 + vy0 ^ 2)
  let v ← checkedClampPair MAX_SPEED vx0 vy0
  if velocity < TARGET_SPEED_THRESHOLD ∧ dist_to_target < TARGET_THRESHOLD then
    some (0, 0, 0)
  else some (v.1, v.2, 0)

noncomputable def checked_get_avoidance_vector (previous_velocity : ℝ × ℝ × ℝ)
    (my_pos target_pos : DronePosition) (other_drones : List (Nat × DroneInfo))
    (dt : ℝ) : Option (ℝ × ℝ × ℝ) := do
  let a ← checkedAttraction my_pos target_pos
  let r ← checkedRepulsion my_pos other_drones dt
  checkedVelocity previous_velocity (r.1 + a.1) (r.2 + a.2.1) a.2.2 dt

end Avoid

-- the value of the repulsion force inside its support band
theorem repulsion_band {d : ℝ} (h1 : Avoid.COLLISION_RADIUS ≤ d)
    (h2 : ¬ d ≥ Avoid.COLLISION_RADIUS * 10) :
    Avoid.calculate_repulsion_force d = Avoid.REPULSION_STRENGTH *
      Real.exp (-((d / Avoid.COLLISION_RADIUS - 1) ^ Avoid.FORCE_EXPONENT)) := by
  unfold Avoid.calculate_repulsion_force
  rw [if_neg h2, if_neg (not_lt.2 h1)]

theorem repulsion_at_radius :
    Avoid.calculate_repulsion_force Avoid.COLLISION_RADIUS = Avoid.REPULSION_STRENGTH := by
  rw [repulsion_band le_rfl (by norm_num [Avoid.COLLISION_RADIUS])]
  rw [div_self (by norm_num [Avoid.COLLISION_RADIUS] : Avoid.COLLISION_RADIUS ≠ 0)]
  rw [sub_self, Real.zero_rpow (by norm_num [Avoid.FORCE_EXPONENT]), neg_zero,
    Real.exp_zero, mul_one]

theorem repulsion_lt_strength {d : ℝ} (hd : d ≠ Avoid.COLLISION_RADIUS) :
    Avoid.calculate_repulsion_force d < Avoid.REPULSION_STRENGTH := by
  by_cases h1 : d ≥ Avoid.COLLISION_RADIUS * 10
  · unfold Avoid.calculate_repulsion_force
    rw [if_pos h1]
    norm_num [Avoid.REPULSION_STRENGTH]
  · by_cases h2 : d < Avoid.COLLISION_RADIUS
    · unfold Avoid.calculate_repulsion_force
      rw [if_neg h1, if_pos h2]
      norm_num [Avoid.REPULSION_STRENGTH]
    · push_neg at h2
      rw [repulsion_band h2 h1]
      have hlt : d / Avoid.COLLISION_RADIUS - 1 > 0 := by
        have hR : (0 : ℝ) < Avoid.COLLISION_RADIUS := by norm_num [Avoid.COLLISION_RADIUS]
        have : (1 : ℝ) < d / Avoid.COLLISION_RADIUS :=
          (one_lt_div hR).2 (lt_of_le_of_ne h2 (Ne.symm hd))
        linarith
      have hpow : (0 : ℝ) < (d / Avoid.COLLISION_RADIUS - 1) ^ Avoid.FORCE_EXPONENT :=
        Real.rpow_pos_of_pos hlt _
      have hexp : Real.exp (-((d / Avoid.COLLISION_RADIUS - 1) ^ Avoid.FORCE_EXPONENT)) < 1 :=
        Real.exp_lt_one_iff.2 (by linarith)
      have hS : (0 : ℝ) < Avoid.REPULSION_STRENGTH := by norm_num [Avoid.REPULSION_STRENGTH]
      calc Avoid.REPULSION_STRENGTH *
          Real.exp (-((d / Avoid.COLLISION_RADIUS - 1) ^ Avoid.FORCE_EXPONENT)) <
            Avoid.REPULSION_STRENGTH * 1 := by
              exact mul_lt_mul_of_pos_left hexp hS
        _ = Avoid.REPULSION_STRENGTH := mul_one _

theorem repulsion_pos_in_band {d : ℝ} (h1 : Avoid.COLLISION_RADIUS ≤ d)
    (h2 : ¬ d ≥ Avoid.COLLISION_RADIUS * 10) :
    0 < Avoid.calculate_repulsion_force d := by
  rw [repulsion_band h1 h2]
  exact mul_pos (by norm_num [Avoid.REPULSION_STRENGTH]) (Real.exp_pos _)

/-- C9: calculate_repulsion_force is zero at and beyond ten collision radii
and zero strictly inside one collision radius; it equals REPULSION_STRENGTH
exactly at the collision radius and is strictly smaller everywhere else; it
is strictly decreasing as the distance grows past the collision radius
within the support band, and it is everywhere bounded by its value at the
collision radius. -/
theorem repulsion_shape :
    (∀ d : ℝ, d ≥ Avoid.COLLISION_RADIUS * 10 → Avoid.calculate_repulsion_force d = 0) ∧
    (∀ d : ℝ, d < Avoid.COLLISION_RADIUS → Avoid.calculate_repulsion_force d = 0) ∧
    Avoid.calculate_repulsion_force Avoid.COLLISION_RADIUS = Avoid.REPULSION_STRENGTH ∧
    (∀ d : ℝ, d ≠ Avoid.COLLISION_RADIUS →
      Avoid.calculate_repulsion_force d < Avoid.REPULSION_STRENGTH) ∧
    (∀ d1 d2 : ℝ, Avoid.COLLISION_RADIUS ≤ d1 → d1 < d2 →
      d1 < Avoid.COLLISION_RADIUS * 10 →
      Avoid.calculate_repulsion_force d2 < Avoid.calculate_repulsion_force d1) ∧
    (∀ d : ℝ, Avoid.calculate_repulsion_force d ≤
      Avoid.calculate_repulsion_force Avoid.COLLISION_RADIUS) := by
  have hR : (0 : ℝ) < Avoid.COLLISION_RADIUS := by norm_num [Avoid.COLLISION_RADIUS]
  refine ⟨fun d hd => ?_, fun d hd => ?_, repulsion_at_radius, fun d hd =>
    repulsion_lt_strength hd, fun d1 d2 h1 h2 h3 => ?_, fun d => ?_⟩
  · unfold Avoid.calculate_repulsion_force
    rw [if_pos hd]
  · unfold Avoid.calculate_repulsion_force
    rw [if_neg (by push_neg; nlinarith [hR] : ¬ d ≥ Avoid.COLLISION_RADIUS * 10), if_pos hd]
  · have h1n : ¬ d1 ≥ Avoid.COLLISION_RADIUS * 10 := not_le.2 h3
    by_cases hd2 : d2 ≥ Avoid.COLLISION_RADIUS * 10
    · have : Avoid.calculate_repulsion_force d2 = 0 := by
        unfold Avoid.calculate_repulsion_force
        rw [if_pos hd2]
      rw [this]
      exact repulsion_pos_in_band h1 h1n
    · rw [repulsion_band h1 h1n, repulsion_band (le_of_lt (lt_of_le_of_lt h1 h2)) hd2]
      have hx1 : (0 : ℝ) ≤ d1 / Avoid.COLLISION_RADIUS - 1 := by
        have : (1 : ℝ) ≤ d1 / Avoid.COLLISION_RADIUS := (one_le_div hR).2 h1
        linarith
      have hx12 : d1 / Avoid.COLLISION_RADIUS - 1 < d2 / Avoid.COLLISION_RADIUS - 1 := by
        have : d1 / Avoid.COLLISION_RADIUS < d2 / Avoid.COLLISION_RADIUS := by gcongr
        linarith
      have hpow : (d1 / Avoid.COLLISION_RADIUS - 1) ^ Avoid.FORCE_EXPONENT <
          (d2 / Avoid.COLLISION_RADIUS - 1) ^ Avoid.FORCE_EXPONENT :=
        Real.rpow_lt_rpow hx1 hx12 (by norm_num [Avoid.FORCE_EXPONENT])
      have hexp : Real.exp (-((d2 / Avoid.COLLISION_RADIUS - 1) ^ Avoid.FORCE_EXPONENT)) <
          Real.exp (-((d1 / Avoid.COLLISION_RADIUS - 1) ^ Avoid.FORCE_EXPONENT)) :=
        Real.exp_lt_exp.2 (by linarith)
      exact mul_lt_mul_of_pos_left hexp (by norm_num [Avoid.REPULSION_STRENGTH])
  · rw [repulsion_at_radius]
    by_cases hd : d = Avoid.COLLISION_RADIUS
    · rw [hd, repulsion_at_radius]
    · exact le_of_lt (repulsion_lt_strength hd)

theorem repulsion_shape_witness :
    Avoid.calculate_repulsion_force 2 = 0 ∧ Avoid.calculate_repulsion_force 0.1 = 0 :=
  ⟨repulsion_shape.1 2 (by norm_num [Avoid.COLLISION_RADIUS]),
   repulsion_shape.2.1 0.1 (by norm_num [Avoid.COLLISION_RADIUS])⟩

-- ## Velocity and acceleration bounds of the control law

-- a pair clamped to magnitude m has squared norm at most m squared
theorem clamp_pair_sq_le (x y m : ℝ) (hm : 0 ≤ m) :
    (if Real.sqrt (x ^ 2 + y ^ 2) > m then x * (m / Real.sqrt (x ^ 2 + y ^ 2)) else x) ^ 2 +
      (if Real.sqrt (x ^ 2 + y ^ 2) > m then y * (m / Real.sqrt (x ^ 2 + y ^ 2)) else y) ^ 2 ≤
      m ^ 2 := by
  have h0 : (0 : ℝ) ≤ x ^ 2 + y ^ 2 := by positivity
  have hs0 : 0 ≤ Real.sqrt (x ^ 2 + y ^ 2) := Real.sqrt_nonneg _
  have hss : Real.sqrt (x ^ 2 + y ^ 2) ^ 2 = x ^ 2 + y ^ 2 := Real.sq_sqrt h0
  by_cases h : Real.sqrt (x ^ 2 + y ^ 2) > m
  · rw [if_pos h, if_pos h]
    have hne : Real.sqrt (x ^ 2 + y ^ 2) ≠ 0 := by
      intro hzero
      rw [hzero] at h
      exact absurd h (not_lt.2 hm)
    have hrw : (x * (m / Real.sqrt (x ^ 2 + y ^ 2))) ^ 2 +
        (y * (m / Real.sqrt (x ^ 2 + y ^ 2))) ^ 2 =
        (x ^ 2 + y ^ 2) * (m ^ 2 / Real.sqrt (x ^ 2 + y ^ 2) ^ 2) := by ring
    have hsum_ne : x ^ 2 + y ^ 2 ≠ 0 := by
      intro hz
      apply hne
      rw [hz, Real.sqrt_zero]
    rw [hrw, hss, mul_comm, div_mul_cancel₀ _ hsum_ne]
  · rw [if_neg h, if_neg h]
    push_neg at h
    calc x ^ 2 + y ^ 2 = Real.sqrt (x ^ 2 + y ^ 2) ^ 2 := hss.symm
      _ ≤ m ^ 2 := by gcongr

-- the last two steps of the velocity update (speed clamp and arrival
-- snap) bound the magnitude of the result by MAX_SPEED
theorem clampPair_sq_le (m x y : ℝ) (hm : 0 ≤ m) :
    (Avoid.clampPair m x y).1 ^ 2 + (Avoid.clampPair m x y).2 ^ 2 ≤ m ^ 2 := by
  unfold Avoid.clampPair
  exact clamp_pair_sq_le x y m hm

theorem tail_bound (vx0 vy0 : ℝ) (snapCond : Prop) [Decidable snapCond] :
    Real.sqrt ((if snapCond then ((0 : ℝ), (0 : ℝ), (0 : ℝ)) else
          ((Avoid.clampPair Avoid.MAX_SPEED vx0 vy0).1,
           (Avoid.clampPair Avoid.MAX_SPEED vx0 vy0).2, 0)).1 ^ 2 +
        (if snapCond then ((0 : ℝ), (0 : ℝ), (0 : ℝ)) else
          ((Avoid.clampPair Avoid.MAX_SPEED vx0 vy0).1,
           (Avoid.clampPair Avoid.MAX_SPEED vx0 vy0).2, 0)).2.1 ^ 2 +
        (if snapCond then ((0 : ℝ), (0 : ℝ), (0 : ℝ)) else
          ((Avoid.clampPair Avoid.MAX_SPEED vx0 vy0).1,
           (Avoid.clampPair Avoid.MAX_SPEED vx0 vy0).2, 0)).2.2 ^ 2) ≤
      Avoid.MAX_SPEED ∧
    (if snapCond then ((0 : ℝ), (0 : ℝ), (0 : ℝ)) else
        ((Avoid.clampPair Avoid.MAX_SPEED vx0 vy0).1,
         (Avoid.clampPair Avoid.MAX_SPEED vx0 vy0).2, 0)).2.2 = 0 := by
  by_cases hsnap : snapCond
  · rw [if_pos hsnap]
    constructor
    · simp only []
      norm_num [Real.sqrt_zero, Avoid.MAX_SPEED]
    · rfl
  · rw [if_neg hsnap]
    constructor
    · simp only []
      rw [show ((0 : ℝ)) ^ 2 = 0 by norm_num, add_zero]
      exact le_trans
        (Real.sqrt_le_sqrt (clampPair_sq_le _ _ _ (by norm_num [Avoid.MAX_SPEED])))
        (le_of_eq (Real.sqrt_sq (by norm_num [Avoid.MAX_SPEED])))
    · rfl

theorem velocityStage_bound (prev : ℝ × ℝ × ℝ) (fx fy dist dt : ℝ) :
    Real.sqrt ((Avoid.velocityStage prev fx fy dist dt).1 ^ 2 +
        (Avoid.velocityStage prev fx fy dist dt).2.1 ^ 2 +
        (Avoid.velocityStage prev fx fy dist dt).2.2 ^ 2) ≤ Avoid.MAX_SPEED ∧
      (Avoid.velocityStage prev fx fy dist dt).2.2 = 0 := by
  unfold Avoid.velocityStage
  exact tail_bound _ _ _

/-- C7: for every input with positive tick time and any stored previous
velocity, the magnitude of the velocity returned by get_avoidance_vector
is at most MAX_SPEED, and its vertical component is exactly zero. -/
theorem speed_bound (prev : ℝ × ℝ × ℝ) (my_pos target_pos : Avoid.DronePosition)
    (others : List (Nat × Avoid.DroneInfo)) (dt : ℝ) (hdt : 0 < dt) :
    Real.sqrt ((Avoid.get_avoidance_vector prev my_pos target_pos others dt).1 ^ 2 +
        (Avoid.get_avoidance_vector prev my_pos target_pos others dt).2.1 ^ 2 +
        (Avoid.get_avoidance_vector prev my_pos target_pos others dt).2.2 ^ 2) ≤
      Avoid.MAX_SPEED ∧
    (Avoid.get_avoidance_vector prev my_pos target_pos others dt).2.2 = 0 := by
  unfold Avoid.get_avoidance_vector
  exact velocityStage_bound prev _ _ _ dt

-- scaling a point outside the ball of radius m back onto the ball does
-- not increase its distance to any point inside the ball
theorem proj_ball_nonexpansive (vx vy px py m : ℝ) (hm : 0 < m)
    (hp : px ^ 2 + py ^ 2 ≤ m ^ 2) (hs : Real.sqrt (vx ^ 2 + vy ^ 2) > m) :
    (vx * (m / Real.sqrt (vx ^ 2 + vy ^ 2)) - px) ^ 2 +
      (vy * (m / Real.sqrt (vx ^ 2 + vy ^ 2)) - py) ^ 2 ≤
      (vx - px) ^ 2 + (vy - py) ^ 2 := by
  have h0 : (0 : ℝ) ≤ vx ^ 2 + vy ^ 2 := by positivity
  set s := Real.sqrt (vx ^ 2 + vy ^ 2) with hsdef
  have hs0 : 0 < s := lt_trans hm hs
  have hss : s ^ 2 = vx ^ 2 + vy ^ 2 := Real.sq_sqrt h0
  have hip2 : (vx * px + vy * py) ^ 2 ≤ s ^ 2 * m ^ 2 := by
    have hcs : (vx * px + vy * py) ^ 2 ≤ (vx ^ 2 + vy ^ 2) * (px ^ 2 + py ^ 2) := by
      nlinarith [sq_nonneg (vx * py - vy * px)]
    nlinarith [hcs, hss, h0, hp]
  have hip : vx * px + vy * py ≤ s * m := by
    have h1 : vx * px + vy * py ≤ |vx * px + vy * py| := le_abs_self _
    have h2 : |vx * px + vy * py| ≤ s * m := by
      rw [← Real.sqrt_sq_eq_abs]
      have hip2x : (vx * px + vy * py) ^ 2 ≤ (s * m) ^ 2 := by nlinarith [hip2]
      refine le_trans (Real.sqrt_le_sqrt hip2x) ?_
      exact le_of_eq (Real.sqrt_sq (by positivity))
    linarith
  set c := m / s with hcdef
  have hc0 : 0 ≤ c := by positivity
  have hcs : c * s = m := div_mul_cancel₀ _ (ne_of_gt hs0)
  have hc1 : c < 1 := (div_lt_one hs0).2 hs
  have hsm : s * m = c * s ^ 2 := by
    rw [← hcs]
    ring
  have hfac : (1 + c) * s ^ 2 - 2 * (vx * px + vy * py) ≥ 0 := by
    nlinarith [hip, hsm, sq_nonneg s, mul_nonneg (le_of_lt (sub_pos.2 hc1)) (sq_nonneg s)]
  have key : (1 - c) * ((1 + c) * s ^ 2 - 2 * (vx * px + vy * py)) ≥ 0 :=
    mul_nonneg (by linarith) hfac
  have hss2 : c ^ 2 * s ^ 2 = c ^ 2 * (vx ^ 2 + vy ^ 2) := by rw [hss]
  nlinarith [key, hss, hss2]

-- the acceleration clamp followed by integration and the speed clamp
-- keeps the change of velocity within MAX_ACCELERATION times dt, for a
-- stored previous velocity inside the speed ball
theorem accel_core (px py ax0 ay0 dt : ℝ) (hdt : 0 < dt)
    (hp : px ^ 2 + py ^ 2 ≤ Avoid.MAX_SPEED ^ 2) :
    Real.sqrt
        (((Avoid.clampPair Avoid.MAX_SPEED
            (px + (Avoid.clampPair Avoid.MAX_ACCELERATION ax0 ay0).1 * dt)
            (py + (Avoid.clampPair Avoid.MAX_ACCELERATION ax0 ay0).2 * dt)).1 - px) ^ 2 +
          ((Avoid.clampPair Avoid.MAX_SPEED
            (px + (Avoid.clampPair Avoid.MAX_ACCELERATION ax0 ay0).1 * dt)
            (py + (Avoid.clampPair Avoid.MAX_ACCELERATION ax0 ay0).2 * dt)).2 - py) ^ 2) / dt ≤
      Avoid.MAX_ACCELERATION := by
  set a := Avoid.clampPair Avoid.MAX_ACCELERATION ax0 ay0 with ha
  have ha9 : a.1 ^ 2 + a.2 ^ 2 ≤ Avoid.MAX_ACCELERATION ^ 2 :=
    clampPair_sq_le _ _ _ (by norm_num [Avoid.MAX_ACCELERATION])
  have hne : ((Avoid.clampPair Avoid.MAX_SPEED (px + a.1 * dt) (py + a.2 * dt)).1 - px) ^ 2 +
      ((Avoid.clampPair Avoid.MAX_SPEED (px + a.1 * dt) (py + a.2 * dt)).2 - py) ^ 2 ≤
      ((px + a.1 * dt) - px) ^ 2 + ((py + a.2 * dt) - py) ^ 2 := by
    by_cases h : Real.sqrt ((px + a.1 * dt) ^ 2 + (py + a.2 * dt) ^ 2) > Avoid.MAX_SPEED
    · unfold Avoid.clampPair
      simp only [if_pos h]
      exact proj_ball_nonexpansive _ _ px py Avoid.MAX_SPEED
        (by norm_num [Avoid.MAX_SPEED]) hp h
    · unfold Avoid.clampPair
      simp only [if_neg h]
      exact le_refl _
  have hstep : ((px + a.1 * dt) - px) ^ 2 + ((py + a.2 * dt) - py) ^ 2 ≤
      (Avoid.MAX_ACCELERATION * dt) ^ 2 := by
    have e1 : (px + a.1 * dt) - px = a.1 * dt := by ring
    have e2 : (py + a.2 * dt) - py = a.2 * dt := by ring
    rw [e1, e2]
    nlinarith [ha9, sq_nonneg dt]
  rw [div_le_iff hdt]
  refine le_trans (Real.sqrt_le_sqrt (le_trans hne hstep)) ?_
  exact le_of_eq (Real.sqrt_sq
    (mul_nonneg (by norm_num [Avoid.MAX_ACCELERATION]) hdt.le))

-- the full tail of the velocity update: either the arrival snap zeroes
-- the output, or the change of velocity stays within the acceleration
-- bound
theorem accel_tail (px py pz ax0 ay0 dt : ℝ) (hdt : 0 < dt) (hz : pz = 0)
    (hp : px ^ 2 + py ^ 2 ≤ Avoid.MAX_SPEED ^ 2) (snapCond : Prop) [Decidable snapCond] :
    (if snapCond then ((0 : ℝ), (0 : ℝ), (0 : ℝ)) else
        ((Avoid.clampPair Avoid.MAX_SPEED
            (px + (Avoid.clampPair Avoid.MAX_ACCELERATION ax0 ay0).1 * dt)
            (py + (Avoid.clampPair Avoid.MAX_ACCELERATION ax0 ay0).2 * dt)).1,
         (Avoid.clampPair Avoid.MAX_SPEED
            (px + (Avoid.clampPair Avoid.MAX_ACCELERATION ax0 ay0).1 * dt)
            (py + (Avoid.clampPair Avoid.MAX_ACCELERATION ax0 ay0).2 * dt)).2, 0)) =
      ((0 : ℝ), (0 : ℝ), (0 : ℝ)) ∨
    Real.sqrt
        (((if snapCond then ((0 : ℝ), (0 : ℝ), (0 : ℝ)) else
            ((Avoid.clampPair Avoid.MAX_SPEED
                (px + (Avoid.clampPair Avoid.MAX_ACCELERATION ax0 ay0).1 * dt)
                (py + (Avoid.clampPair Avoid.MAX_ACCELERATION ax0 ay0).2 * dt)).1,
             (Avoid.clampPair Avoid.MAX_SPEED
                (px + (Avoid.clampPair Avoid.MAX_ACCELERATION ax0 ay0).1 * dt)
                (py + (Avoid.clampPair Avoid.MAX_ACCELERATION ax0 ay0).2 * dt)).2, 0)).1 -
            px) ^ 2 +
          ((if snapCond then ((0 : ℝ), (0 : ℝ), (0 : ℝ)) else
            ((Avoid.clampPair Avoid.MAX_SPEED
                (px + (Avoid.clampPair Avoid.MAX_ACCELERATION ax0 ay0).1 * dt)
                (py + (Avoid.clampPair Avoid.MAX_ACCELERATION ax0 ay0).2 * dt)).1,
             (Avoid.clampPair Avoid.MAX_SPEED
                (px + (Avoid.clampPair Avoid.MAX_ACCELERATION ax0 ay0).1 * dt)
                (py + (Avoid.clampPair Avoid.MAX_ACCELERATION ax0 ay0).2 * dt)).2, 0)).2.1 -
            py) ^ 2 +
          ((if snapCond then ((0 : ℝ), (0 : ℝ), (0 : ℝ)) else
            ((Avoid.clampPair Avoid.MAX_SPEED
                (px + (Avoid.clampPair Avoid.MAX_ACCELERATION ax0 ay0).1 * dt)
                (py + (Avoid.clampPair Avoid.MAX_ACCELERATION ax0 ay0).2 * dt)).1,
             (Avoid.clampPair Avoid.MAX_SPEED
                (px + (Avoid.clampPair Avoid.MAX_ACCELERATION ax0 ay0).1 * dt)
                (py + (Avoid.clampPair Avoid.MAX_ACCELERATION ax0 ay0).2 * dt)).2, 0)).2.2 -
            pz) ^ 2) / dt ≤
      Avoid.MAX_ACCELERATION := by
  by_cases hsnap : snapCond
  · left
    rw [if_pos hsnap]
  · right
    rw [if_neg hsnap]
    simp only []
    rw [hz, show ((0 : ℝ) - 0) ^ 2 = 0 by norm_num, add_zero]
    exact accel_core px py ax0 ay0 dt hdt hp

theorem velocityStage_accel (prev : ℝ × ℝ × ℝ) (fx fy dist dt : ℝ) (hdt : 0 < dt)
    (hz : prev.2.2 = 0) (hp : prev.1 ^ 2 + prev.2.1 ^ 2 ≤ Avoid.MAX_SPEED ^ 2) :
    Avoid.velocityStage prev fx fy dist dt = (0, 0, 0) ∨
    Real.sqrt (((Avoid.velocityStage prev fx fy dist dt).1 - prev.1) ^ 2 +
        ((Avoid.velocityStage prev fx fy dist dt).2.1 - prev.2.1) ^ 2 +
        ((Avoid.velocityStage prev fx fy dist dt).2.2 - prev.2.2) ^ 2) / dt ≤
      Avoid.MAX_ACCELERATION := by
  unfold Avoid.velocityStage
  exact accel_tail prev.1 prev.2.1 prev.2.2 _ _ dt hdt hz hp _

-- evaluation of the control law at a concrete input where the arrival
-- snap fires: previous velocity (7/20, 0, 0), both poses at the origin,
-- no peers, dt = 1/10
theorem snap_example_eval :
    Avoid.get_avoidance_vector ((7 : ℝ)/20, 0, 0) ⟨0, 0, 0, 0, 0, 0⟩ ⟨0, 0, 0, 0, 0, 0⟩ []
      (1/10) = (0, 0, 0) := by
  have hs1 : Real.sqrt ((3969 : ℝ)/400) = 63/20 := by
    rw [show ((3969 : ℝ)/400) = (63/20) ^ 2 by norm_num, Real.sqrt_sq (by norm_num)]
  have hs2 : Real.sqrt ((1 : ℝ)/400) = 1/20 := by
    rw [show ((1 : ℝ)/400) = (1/20) ^ 2 by norm_num, Real.sqrt_sq (by norm_num)]
  have hmin : min ((1 : ℝ)/10) (1/4) = 1/10 := min_eq_left (by norm_num)
  unfold Avoid.get_avoidance_vector Avoid.attractionStage Avoid.repulsionStage
    Avoid.velocityStage Avoid.clampPair
  norm_num [Real.sqrt_zero, Real.zero_rpow, hs1, hs2, hmin, Avoid.ARRIVAL_RADIUS,
    Avoid.ATTRACTION_STRENGTH, Avoid.BASE_DAMPING, Avoid.FORCE_DAMPING_FACTOR,
    Avoid.MAX_DAMPING, Avoid.MAX_ACCELERATION, Avoid.MAX_SPEED,
    Avoid.TARGET_SPEED_THRESHOLD, Avoid.TARGET_THRESHOLD]

/-- C8: the claim is falsified by the arrival snap: with previous velocity
(7/20, 0, 0), both poses at the origin, no peers and dt = 1/10, the
returned velocity is (0, 0, 0), and the implied per-tick acceleration
magnitude is (7/20) / (1/10) = 3.5, which exceeds MAX_ACCELERATION = 3. -/
theorem accel_bound_counterexample :
    ¬ (Real.sqrt
        (((Avoid.get_avoidance_vector ((7 : ℝ)/20, 0, 0) ⟨0, 0, 0, 0, 0, 0⟩
            ⟨0, 0, 0, 0, 0, 0⟩ [] (1/10)).1 - 7/20) ^ 2 +
          ((Avoid.get_avoidance_vector ((7 : ℝ)/20, 0, 0) ⟨0, 0, 0, 0, 0, 0⟩
            ⟨0, 0, 0, 0, 0, 0⟩ [] (1/10)).2.1 - 0) ^ 2 +
          ((Avoid.get_avoidance_vector ((7 : ℝ)/20, 0, 0) ⟨0, 0, 0, 0, 0, 0⟩
            ⟨0, 0, 0, 0, 0, 0⟩ [] (1/10)).2.2 - 0) ^ 2) / (1/10) ≤
        Avoid.MAX_ACCELERATION) := by
  rw [snap_example_eval]
  have hs : Real.sqrt (((0 : ℝ) - 7/20) ^ 2 + ((0 : ℝ) - 0) ^ 2 + ((0 : ℝ) - 0) ^ 2) =
      7/20 := by
    rw [show (((0 : ℝ) - 7/20) ^ 2 + ((0 : ℝ) - 0) ^ 2 + ((0 : ℝ) - 0) ^ 2) = (7/20) ^ 2 by
      norm_num, Real.sqrt_sq (by norm_num)]
  simp only []
  rw [hs]
  norm_num [Avoid.MAX_ACCELERATION]

/-- C8 (amended): for every input with positive tick time and a stored
previous velocity as the controller itself maintains it (magnitude at most
MAX_SPEED, vertical component zero), either the arrival snap forces the
returned velocity to exactly (0, 0, 0), or the magnitude of the velocity
change divided by dt is at most MAX_ACCELERATION; the snap case can exceed
the acceleration bound. -/
theorem accel_bound (prev : ℝ × ℝ × ℝ) (my_pos target_pos : Avoid.DronePosition)
    (others : List (Nat × Avoid.DroneInfo)) (dt : ℝ) (hdt : 0 < dt)
    (hz : prev.2.2 = 0)
    (hp : Real.sqrt (prev.1 ^ 2 + prev.2.1 ^ 2) ≤ Avoid.MAX_SPEED) :
    Avoid.get_avoidance_vector prev my_pos target_pos others dt = (0, 0, 0) ∨
    Real.sqrt (((Avoid.get_avoidance_vector prev my_pos target_pos others dt).1 -
          prev.1) ^ 2 +
        ((Avoid.get_avoidance_vector prev my_pos target_pos others dt).2.1 -
          prev.2.1) ^ 2 +
        ((Avoid.get_avoidance_vector prev my_pos target_pos others dt).2.2 -
          prev.2.2) ^ 2) / dt ≤ Avoid.MAX_ACCELERATION := by
  have hp2 : prev.1 ^ 2 + prev.2.1 ^ 2 ≤ Avoid.MAX_SPEED ^ 2 := by
    have h1 := pow_le_pow_left (Real.sqrt_nonneg _) hp 2
    rw [Real.sq_sqrt (by positivity)] at h1
    exact h1
  unfold Avoid.get_avoidance_vector
  exact velocityStage_accel prev _ _ _ dt hdt hz hp2

theorem accel_bound_witness :
    Avoid.get_avoidance_vector (0, 0, 0) ⟨0, 0, 0, 0, 0, 0⟩ ⟨0, 0, 0, 0, 0, 0⟩ [] 1 =
      (0, 0, 0) ∨
    Real.sqrt (((Avoid.get_avoidance_vector (0, 0, 0) ⟨0, 0, 0, 0, 0, 0⟩
          ⟨0, 0, 0, 0, 0, 0⟩ [] 1).1 - 0) ^ 2 +
        ((Avoid.get_avoidance_vector (0, 0, 0) ⟨0, 0, 0, 0, 0, 0⟩
          ⟨0, 0, 0, 0, 0, 0⟩ [] 1).2.1 - 0) ^ 2 +
        ((Avoid.get_avoidance_vector (0, 0, 0) ⟨0, 0, 0, 0, 0, 0⟩
          ⟨0, 0, 0, 0, 0, 0⟩ [] 1).2.2 - 0) ^ 2) / 1 ≤ Avoid.MAX_ACCELERATION :=
  accel_bound (0, 0, 0) ⟨0, 0, 0, 0, 0, 0⟩ ⟨0, 0, 0, 0, 0, 0⟩ [] 1 zero_lt_one rfl
    (by norm_num [Real.sqrt_zero, Avoid.MAX_SPEED])

-- ## Totality of the control law (guarded model agrees with the plain one)

theorem cdiv_eq (a b : ℝ) (h : b ≠ 0) : Avoid.cdiv a b = some (a / b) := by
  unfold Avoid.cdiv
  rw [if_neg h]

theorem csqrt_eq (a : ℝ) (h : 0 ≤ a) : Avoid.csqrt a = some (Real.sqrt a) := by
  unfold Avoid.csqrt
  rw [if_neg (not_lt.2 h)]

theorem cpow_eq (a b : ℝ) (h : 0 ≤ a) : Avoid.cpow a b = some (a ^ b) := by
  unfold Avoid.cpow
  rw [if_neg (not_lt.2 h)]

theorem checked_repulsion_eq (d : ℝ) :
    Avoid.checked_repulsion_force d = some (Avoid.calculate_repulsion_force d) := by
  unfold Avoid.checked_repulsion_force Avoid.calculate_repulsion_force
  by_cases h1 : d ≥ Avoid.COLLISION_RADIUS * 10
  · rw [if_pos h1, if_pos h1]
  · rw [if_neg h1, if_neg h1]
    by_cases h2 : d < Avoid.COLLISION_RADIUS
    · rw [if_pos h2, if_pos h2]
    · rw [if_neg h2, if_neg h2]
      push_neg at h2
      rw [cdiv_eq _ _ (by norm_num [Avoid.COLLISION_RADIUS])]
      simp only [Option.bind_eq_bind, Option.some_bind]
      rw [cpow_eq _ _ (by
        have hR : (0 : ℝ) < Avoid.COLLISION_RADIUS := by norm_num [Avoid.COLLISION_RADIUS]
        have : (1 : ℝ) ≤ d / Avoid.COLLISION_RADIUS := (one_le_div hR).2 h2
        linarith)]
      simp only [Option.bind_eq_bind, Option.some_bind]

theorem checkedAttraction_eq (my_pos target_pos : Avoid.DronePosition) :
    Avoid.checkedAttraction my_pos target_pos =
      some (Avoid.attractionStage my_pos target_pos) := by
  unfold Avoid.checkedAttraction Avoid.attractionStage
  simp only []
  rw [csqrt_eq _ (by positivity)]
  simp only [Option.bind_eq_bind, Option.some_bind]
  set S := Real.sqrt ((target_pos.x - my_pos.x) ^ 2 + (target_pos.y - my_pos.y) ^ 2) with hSdef
  have hAR : (0 : ℝ) < Avoid.ARRIVAL_RADIUS := by norm_num [Avoid.ARRIVAL_RADIUS]
  have hS0 : 0 ≤ S := by
    rw [hSdef]
    exact Real.sqrt_nonneg _
  have hA15 : (0 : ℝ) < Avoid.ARRIVAL_RADIUS * 1.5 := by norm_num [Avoid.ARRIVAL_RADIUS]
  have hdivA : ∀ a : ℝ, Avoid.cdiv a (Avoid.ARRIVAL_RADIUS * 1.5) =
      some (a / (Avoid.ARRIVAL_RADIUS * 1.5)) := fun a => cdiv_eq a _ (ne_of_gt hA15)
  have hpowA : Avoid.cpow (S / (Avoid.ARRIVAL_RADIUS * 1.5)) (1.0 : ℝ) =
      some ((S / (Avoid.ARRIVAL_RADIUS * 1.5)) ^ (1.0 : ℝ)) :=
    cpow_eq _ _ (div_nonneg hS0 hA15.le)
  by_cases h1 : S > Avoid.ARRIVAL_RADIUS
  · have hdivS : ∀ a : ℝ, Avoid.cdiv a S = some (a / S) :=
      fun a => cdiv_eq a S (ne_of_gt (lt_trans hAR h1))
    by_cases h2 : S < Avoid.ARRIVAL_RADIUS * 1.5 <;>
      simp only [h1, h2, if_true, if_false, ite_true, ite_false, hdivS, hdivA, hpowA,
        Option.bind_eq_bind, Option.some_bind]
  · by_cases h2 : S < Avoid.ARRIVAL_RADIUS * 1.5 <;>
      simp only [h1, h2, if_true, if_false, ite_true, ite_false, hdivA, hpowA,
        Option.bind_eq_bind, Option.some_bind]

theorem checkedPeerForce_eq (my_pos : Avoid.DronePosition) (dt : ℝ) (acc : ℝ × ℝ)
    (info : Avoid.DroneInfo) :
    Avoid.checkedPeerForce my_pos dt acc info =
      some (Avoid.peerForce my_pos dt acc info) := by
  unfold Avoid.checkedPeerForce Avoid.peerForce
  simp only []
  rw [csqrt_eq _ (by positivity)]
  simp only [Option.bind_eq_bind, Option.some_bind]
  rw [csqrt_eq _ (by positivity)]
  simp only [Option.bind_eq_bind, Option.some_bind]
  set D := Real.sqrt ((my_pos.x - info.position.x) ^ 2 + (my_pos.y - info.position.y) ^ 2)
    with hD
  set F := Real.sqrt ((my_pos.x + my_pos.vx * dt - (info.position.x + info.position.vx * dt)) ^ 2 +
    (my_pos.y + my_pos.vy * dt - (info.position.y + info.position.vy * dt)) ^ 2) with hF
  have hmax : (0 : ℝ) < max F (Avoid.COLLISION_RADIUS * 0.1) :=
    lt_of_lt_of_le (by norm_num [Avoid.COLLISION_RADIUS]) (le_max_right _ _)
  have hdivmax : Avoid.cdiv D (max F (Avoid.COLLISION_RADIUS * 0.1)) =
      some (D / max F (Avoid.COLLISION_RADIUS * 0.1)) := cdiv_eq _ _ (ne_of_gt hmax)
  by_cases h1 : F < D
  · simp only [h1, if_true, ite_true, hdivmax, checked_repulsion_eq, Option.bind_eq_bind,
      Option.some_bind]
    by_cases h2 : Avoid.calculate_repulsion_force D *
        (D / max F (Avoid.COLLISION_RADIUS * 0.1)) = 0
    · simp only [h2, if_true, ite_true]
    · simp only [h2, if_false, ite_false]
      by_cases h3 : D > 0
      · have hdivD : ∀ a : ℝ, Avoid.cdiv a D = some (a / D) :=
          fun a => cdiv_eq a D (ne_of_gt h3)
        simp only [h3, h1, if_true, ite_true, hdivD, Option.bind_eq_bind, Option.some_bind]
      · simp only [h3, h1, if_true, if_false, ite_true, ite_false, Option.bind_eq_bind,
          Option.some_bind]
  · simp only [h1, if_false, ite_false, checked_repulsion_eq, Option.bind_eq_bind,
      Option.some_bind]
    by_cases h2 : Avoid.calculate_repulsion_force D * 1 = 0
    · simp only [h2, if_true, ite_true]
    · simp only [h2, if_false, ite_false]
      by_cases h3 : D > 0
      · have hdivD : ∀ a : ℝ, Avoid.cdiv a D = some (a / D) :=
          fun a => cdiv_eq a D (ne_of_gt h3)
        simp only [h3, h1, if_true, if_false, ite_true, ite_false, hdivD,
          Option.bind_eq_bind, Option.some_bind]
      · simp only [h3, h1, if_false, ite_false, Option.bind_eq_bind, Option.some_bind]

theorem checkedRepulsion_fold (my_pos : Avoid.DronePosition) (dt : ℝ) :
    ∀ (l : List (Nat × Avoid.DroneInfo)) (acc : ℝ × ℝ),
      List.foldlM (fun acc p => Avoid.checkedPeerForce my_pos dt acc p.2) acc l =
        some (List.foldl (fun acc p => Avoid.peerForce my_pos dt acc p.2) acc l)
  | [], acc => by simp
  | p :: t, acc => by
    rw [List.foldlM_cons, List.foldl_cons]
    rw [checkedPeerForce_eq my_pos dt acc p.2]
    simp only [Option.bind_eq_bind, Option.some_bind]
    exact checkedRepulsion_fold my_pos dt t _

theorem checkedRepulsion_eq (my_pos : Avoid.DronePosition)
    (others : List (Nat × Avoid.DroneInfo)) (dt : ℝ) :
    Avoid.checkedRepulsion my_pos others dt =
      some (Avoid.repulsionStage my_pos others dt) := by
  unfold Avoid.checkedRepulsion Avoid.repulsionStage
  exact checkedRepulsion_fold my_pos dt others (0, 0)

theorem checkedClampPair_eq (m x y : ℝ) (hm : 0 ≤ m) :
    Avoid.checkedClampPair m x y = some (Avoid.clampPair m x y) := by
  unfold Avoid.checkedClampPair Avoid.clampPair
  rw [csqrt_eq _ (by positivity)]
  simp only [Option.bind_eq_bind, Option.some_bind]
  by_cases h : Real.sqrt (x ^ 2 + y ^ 2) > m
  · have hne : Real.sqrt (x ^ 2 + y ^ 2) ≠ 0 := ne_of_gt (lt_of_le_of_lt hm h)
    simp only [h, if_true, ite_true, cdiv_eq m _ hne, Option.bind_eq_bind, Option.some_bind]
  · simp only [h, if_false, ite_false]

theorem checkedVelocity_eq (prev : ℝ × ℝ × ℝ) (fx fy dist dt : ℝ) (hdt : dt ≠ 0) :
    Avoid.checkedVelocity prev fx fy dist dt =
      some (Avoid.velocityStage prev fx fy dist dt) := by
  unfold Avoid.checkedVelocity Avoid.velocityStage
  simp only []
  rw [csqrt_eq _ (by positivity)]
  simp only [Option.bind_eq_bind, Option.some_bind]
  have hdiv : ∀ a : ℝ, Avoid.cdiv a dt = some (a / dt) := fun a => cdiv_eq a dt hdt
  simp only [hdiv, Option.bind_eq_bind, Option.some_bind]
  rw [checkedClampPair_eq _ _ _ (by norm_num [Avoid.MAX_ACCELERATION])]
  simp only [Option.bind_eq_bind, Option.some_bind]
  rw [csqrt_eq _ (by positivity)]
  simp only [Option.bind_eq_bind, Option.some_bind]
  rw [checkedClampPair_eq _ _ _ (by norm_num [Avoid.MAX_SPEED])]
  simp only [Option.bind_eq_bind, Option.some_bind]
  split <;> rename_i h <;> simp [h]

theorem checkedVelocity_dt_zero (prev : ℝ × ℝ × ℝ) (fx fy dist : ℝ) :
    Avoid.checkedVelocity prev fx fy dist 0 = none := by
  unfold Avoid.checkedVelocity
  simp only []
  rw [csqrt_eq _ (by positivity)]
  simp only [Option.bind_eq_bind, Option.some_bind]
  have hc : ∀ a : ℝ, Avoid.cdiv a 0 = none := fun a => by
    unfold Avoid.cdiv
    rw [if_pos rfl]
  simp only [hc, Option.bind_eq_bind, Option.none_bind]

/-- C10: the totality claim is falsified at tick time dt = 0: the divisions
by dt in the acceleration computation are not guarded, so the guarded copy
of the control law reports a division by zero (none) at dt = 0 — the
corresponding Python code raises ZeroDivisionError there. -/
theorem never_raises_counterexample :
    Avoid.checked_get_avoidance_vector (0, 0, 0) ⟨0, 0, 0, 0, 0, 0⟩ ⟨0, 0, 0, 0, 0, 0⟩ []
      0 = none := by
  unfold Avoid.checked_get_avoidance_vector
  rw [checkedAttraction_eq]
  simp only [Option.bind_eq_bind, Option.some_bind]
  rw [show Avoid.checkedRepulsion ⟨0, 0, 0, 0, 0, 0⟩ [] 0 = some (0, 0) from rfl]
  simp only [Option.some_bind]
  exact checkedVelocity_dt_zero _ _ _ _

/-- C10 (amended): for every input with nonzero tick time the control law
never raises: the guarded copy of get_avoidance_vector, in which every
division, square root and fractional power is checked, returns exactly the
unguarded result — every division is guarded against zero distance
(normalization only when the distance is positive, the prediction ratio
denominator bounded below by a tenth of the collision radius) and the
fractional power only ever sees a nonnegative base; with an empty peer
snapshot the law reduces to pure attraction (the repulsion sum is zero).
At dt = 0 the divisions by dt are unguarded and the law does raise. -/
theorem never_raises (prev : ℝ × ℝ × ℝ) (my_pos target_pos : Avoid.DronePosition)
    (others : List (Nat × Avoid.DroneInfo)) (dt : ℝ) (hdt : dt ≠ 0) :
    Avoid.checked_get_avoidance_vector prev my_pos target_pos others dt =
      some (Avoid.get_avoidance_vector prev my_pos target_pos others dt) ∧
    Avoid.repulsionStage my_pos [] dt = (0, 0) ∧
    Avoid.get_avoidance_vector prev my_pos target_pos [] dt =
      Avoid.velocityStage prev (Avoid.attractionStage my_pos target_pos).1
        (Avoid.attractionStage my_pos target_pos).2.1
        (Avoid.attractionStage my_pos target_pos).2.2 dt := by
  refine ⟨?_, rfl, ?_⟩
  · unfold Avoid.checked_get_avoidance_vector Avoid.get_avoidance_vector
    rw [checkedAttraction_eq]
    simp only [Option.bind_eq_bind, Option.some_bind]
    rw [checkedRepulsion_eq]
    simp only [Option.some_bind]
    exact checkedVelocity_eq _ _ _ _ _ hdt
  · unfold Avoid.get_avoidance_vector Avoid.repulsionStage
    simp only [List.foldl_nil, zero_add]

theorem never_raises_witness :
    Avoid.checked_get_avoidance_vector (0, 0, 0) ⟨0, 0, 0, 0, 0, 0⟩ ⟨0, 0, 0, 0, 0, 0⟩ []
        1 =
      some (Avoid.get_avoidance_vector (0, 0, 0) ⟨0, 0, 0, 0, 0, 0⟩ ⟨0, 0, 0, 0, 0, 0⟩ []
        1) :=
  (never_raises (0, 0, 0) ⟨0, 0, 0, 0, 0, 0⟩ ⟨0, 0, 0, 0, 0, 0⟩ [] 1 one_ne_zero).1

theorem speed_bound_witness :
    Real.sqrt ((Avoid.get_avoidance_vector (0, 0, 0) ⟨0, 0, 0, 0, 0, 0⟩
        ⟨0, 0, 0, 0, 0, 0⟩ [] 1).1 ^ 2 +
      (Avoid.get_avoidance_vector (0, 0, 0) ⟨0, 0, 0, 0, 0, 0⟩
        ⟨0, 0, 0, 0, 0, 0⟩ [] 1).2.1 ^ 2 +
      (Avoid.get_avoidance_vector (0, 0, 0) ⟨0, 0, 0, 0, 0, 0⟩
        ⟨0, 0, 0, 0, 0, 0⟩ [] 1).2.2 ^ 2) ≤ Avoid.MAX_SPEED :=
  (speed_bound (0, 0, 0) ⟨0, 0, 0, 0, 0, 0⟩ ⟨0, 0, 0, 0, 0, 0⟩ [] 1 zero_lt_one).1

end Skyros
